import Mathlib

/-!
Verification development for the envelope-budgeting ledger engine of the
money-flow repository.  The definitions below are a shallow embedding of the
Dexie-based `database.js` (src/unnamed/part_000, lines 571-1615): the
IndexedDB tables become lists of records together with an auto-increment
counter, the async functions become pure state-passing functions, and a JS
`throw` becomes an `Except.error` paired with the unchanged store (every
throw in the embedded functions happens before any write).  Monetary values
are JS numbers used integrally throughout the source, so they are embedded
as `Int`.  The ISO timestamps (`createdAt` / `updatedAt`) that the source
attaches to records come from the wall clock and are not part of the state
model; no other field is dropped.
-/

namespace MoneyFlow

/-- Record id projection shared by all entity tables (the Dexie `++id`
auto-increment primary key). -/
class HasId (α : Type) where
  getId : α → Nat

/-- Envelope record (src/unnamed/part_000, lines 643-657). -/
structure Envelope where
  id : Nat
  name : String
  description : String
  order : Int
  deriving DecidableEq

instance : HasId Envelope := ⟨Envelope.id⟩

/-- Category record (src/unnamed/part_000, lines 717-732). -/
structure Category where
  id : Nat
  envelopeId : Nat
  name : String
  description : String
  order : Int
  deriving DecidableEq

instance : HasId Category := ⟨Category.id⟩

/-- Budget record (src/unnamed/part_000, lines 796-827): one row per
`(categoryId, month)` pair with `budgetAmount`, `carriedOver` and the stored
`totalBudget` field. -/
structure Budget where
  id : Nat
  categoryId : Nat
  month : String
  budgetAmount : Int
  carriedOver : Int
  totalBudget : Int
  deriving DecidableEq

instance : HasId Budget := ⟨Budget.id⟩

/-- Income record (src/unnamed/part_000, lines 902-923). -/
structure Income where
  id : Nat
  date : String
  month : String
  source : String
  amount : Int
  note : String
  isAllocated : Bool
  deriving DecidableEq

instance : HasId Income := ⟨Income.id⟩

/-- Allocation provenance record (src/unnamed/part_000, lines 996-1003);
`incomeId` is `none` for carry-over allocations. -/
structure Allocation where
  id : Nat
  incomeId : Option Nat
  budgetId : Nat
  amount : Int
  type : String
  note : String
  deriving DecidableEq

instance : HasId Allocation := ⟨Allocation.id⟩

/-- Expense record (src/unnamed/part_000, lines 1042-1051). -/
structure Expense where
  id : Nat
  date : String
  month : String
  categoryId : Nat
  amount : Int
  note : String
  isOverBudget : Bool
  deriving DecidableEq

instance : HasId Expense := ⟨Expense.id⟩

/-- Subsidy record (src/unnamed/part_000, lines 1107-1115). -/
structure Subsidy where
  id : Nat
  expenseId : Nat
  fromCategoryId : Nat
  toCategoryId : Nat
  amount : Int
  month : String
  note : String
  deriving DecidableEq

instance : HasId Subsidy := ⟨Subsidy.id⟩

/-- Carryover settlement record (src/unnamed/part_000, lines 1435-1446). -/
structure Carryover where
  id : Nat
  categoryId : Nat
  fromMonth : String
  toMonth : String
  remainingBudget : Int
  carriedAmount : Int
  action : String
  note : String
  deriving DecidableEq

instance : HasId Carryover := ⟨Carryover.id⟩

/-- Monthly snapshot record (src/unnamed/part_000, lines 1522-1545), the
cached dashboard summary; `budgetUtilization` is a JS float, embedded as an
exact rational. -/
structure MonthlySnapshot where
  id : Nat
  month : String
  totalIncome : Int
  totalExpense : Int
  totalBudget : Int
  totalRemaining : Int
  savedAmount : Int
  budgetUtilization : Rat
  overBudgetCount : Nat
  deriving DecidableEq

instance : HasId MonthlySnapshot := ⟨MonthlySnapshot.id⟩

/-- One IndexedDB object store: the rows in primary-key order plus the
auto-increment key generator (Dexie `++id`, starting at 1). -/
structure Table (α : Type) where
  rows : List α
  nextId : Nat
  deriving DecidableEq

namespace Table

/-- `store.add(record)`: append a fresh record built from the generated id
and advance the key generator. -/
def add (t : Table α) (mk : Nat → α) : α × Table α :=
  let r := mk t.nextId
  (r, ⟨t.rows ++ [r], t.nextId + 1⟩)

/-- Dexie `table.update(id, changes)`: apply the field changes to the record
whose primary key is `id` (primary keys are unique in IndexedDB; on lists
with duplicated ids every row with that id is rewritten, a situation the
well-formedness predicate below rules out). -/
def updateById [HasId α] (t : Table α) (i : Nat) (f : α → α) : Table α :=
  { t with rows := t.rows.map (fun r => if HasId.getId r = i then f r else r) }

/-- Dexie `table.delete(id)`. -/
def deleteById [HasId α] (t : Table α) (i : Nat) : Table α :=
  { t with rows := t.rows.filter (fun r => HasId.getId r != i) }

/-- Dexie `table.clear()`: removes every row; the IndexedDB key generator is
not reset by a clear. -/
def clearTable (t : Table α) : Table α :=
  { t with rows := [] }

/-- Dexie `table.bulkAdd(records)` on records that carry their own primary
keys (the import path): the rows are stored as given and the key generator
is advanced past every explicit key. -/
def bulkAdd [HasId α] (t : Table α) (l : List α) : Table α :=
  { rows := t.rows ++ l, nextId := l.foldl (fun n r => max n (HasId.getId r + 1)) t.nextId }

/-- Well-formedness of a table, true of every state IndexedDB can reach:
primary keys are pairwise distinct and below the key generator. -/
def WF [HasId α] (t : Table α) : Prop :=
  (t.rows.map HasId.getId).Nodup ∧ ∀ r ∈ t.rows, HasId.getId r < t.nextId

instance [HasId α] (t : Table α) : Decidable t.WF := by
  unfold WF; infer_instance

end Table

/-- The whole database (the nine object stores of `FinancialTrackerDB`,
src/unnamed/part_000, lines 585-595). -/
structure Store where
  envelopes : Table Envelope
  categories : Table Category
  budgets : Table Budget
  incomes : Table Income
  allocations : Table Allocation
  expenses : Table Expense
  subsidies : Table Subsidy
  carryovers : Table Carryover
  monthlySnapshots : Table MonthlySnapshot
  deriving DecidableEq

/-- An empty table with the key generator at its initial value. -/
def Table.empty : Table α := ⟨[], 1⟩

/-- The freshly created database. -/
def emptyStore : Store :=
  ⟨Table.empty, Table.empty, Table.empty, Table.empty, Table.empty,
   Table.empty, Table.empty, Table.empty, Table.empty⟩

/-- `getMonthFromDate` (src/unnamed/part_000, lines 634-636):
`dateString.substring(0, 7)`.  Period keys and dates are ASCII, where the
JS code-unit prefix coincides with the first seven characters. -/
def getMonthFromDate (dateString : String) : String :=
  ⟨dateString.data.take 7⟩

/-- Digit-string parsing, the `Number(...)` conversion applied by
`processCarryOver` to the two halves of a `YYYY-MM` key. -/
def parseNatDigits (l : List Char) : Nat :=
  l.foldl (fun a c => a * 10 + (c.toNat - 48)) 0

/-- Split a month key at its first dash, the `fromMonth.split('-')` step of
`processCarryOver` for well-formed `YYYY-MM` keys. -/
def splitDash (l : List Char) : List Char × List Char :=
  (l.takeWhile (fun c => c != '-'), (l.dropWhile (fun c => c != '-')).drop 1)

/-- Parse a `YYYY-MM` key into its year and month numbers. -/
def parseMonth (s : String) : Nat × Nat :=
  let p := splitDash s.data
  (parseNatDigits p.1, parseNatDigits p.2)

/-- Zero-pad to two digits, `String(n).padStart(2, '0')`. -/
def pad2 (n : Nat) : String :=
  if n < 10 then "0" ++ toString n else toString n

/-- The next calendar period computed by `processCarryOver`
(src/unnamed/part_000, lines 1418-1420): `new Date(year, month, 1)` with the
1-indexed parsed month lands on the following month, with JS date
normalisation rolling month 12 into January of the next year. -/
def nextMonthKey (fromMonth : String) : String :=
  let p := parseMonth fromMonth
  toString (p.1 + p.2 / 12) ++ "-" ++ pad2 (p.2 % 12 + 1)

/-- `getBudget` (src/unnamed/part_000, lines 832-842): the row for the
compound key `[categoryId+month]`, if any. -/
def getBudget (s : Store) (categoryId : Nat) (month : String) : Option Budget :=
  s.budgets.rows.find? (fun b => b.categoryId == categoryId && b.month == month)

/-- `getExpensesByCategory` (src/unnamed/part_000, lines 1170-1180). -/
def getExpensesByCategory (s : Store) (categoryId : Nat) (month : String) : List Expense :=
  s.expenses.rows.filter (fun e => e.categoryId == categoryId && e.month == month)

/-- `sumExpenses` (src/unnamed/part_000, lines 1263-1271). -/
def sumExpenses (s : Store) (categoryId : Nat) (month : String) : Int :=
  (getExpensesByCategory s categoryId month).foldl (fun sum e => sum + e.amount) 0

/-- `getSubsidiesGiven` (src/unnamed/part_000, lines 1203-1214). -/
def getSubsidiesGiven (s : Store) (categoryId : Nat) (month : String) : List Subsidy :=
  s.subsidies.rows.filter (fun x => x.fromCategoryId == categoryId && x.month == month)

/-- `getSubsidiesReceived` (src/unnamed/part_000, lines 1219-1230). -/
def getSubsidiesReceived (s : Store) (categoryId : Nat) (month : String) : List Subsidy :=
  s.subsidies.rows.filter (fun x => x.toCategoryId == categoryId && x.month == month)

/-- `sumSubsidiesGiven` (src/unnamed/part_000, lines 1235-1243). -/
def sumSubsidiesGiven (s : Store) (categoryId : Nat) (month : String) : Int :=
  (getSubsidiesGiven s categoryId month).foldl (fun sum x => sum + x.amount) 0

/-- `sumSubsidiesReceived` (src/unnamed/part_000, lines 1248-1256). -/
def sumSubsidiesReceived (s : Store) (categoryId : Nat) (month : String) : Int :=
  (getSubsidiesReceived s categoryId month).foldl (fun sum x => sum + x.amount) 0

/-- `getBudgetRemaining` (src/unnamed/part_000, lines 1277-1292): zero when
no budget row exists, otherwise
`totalBudget + subsidiesReceived - expenses - subsidiesGiven`. -/
def getBudgetRemaining (s : Store) (categoryId : Nat) (month : String) : Int :=
  match getBudget s categoryId month with
  | none => 0
  | some budget =>
      budget.totalBudget + sumSubsidiesReceived s categoryId month
        - sumExpenses s categoryId month - sumSubsidiesGiven s categoryId month

/-- The report produced by `getBudgetBreakdown`.  `utilizationPercent` is a
JS float rounded to one decimal; it is embedded as an exact rational. -/
structure Breakdown where
  categoryId : Nat
  month : String
  originalBudget : Int
  carriedOver : Int
  totalBudget : Int
  actualSpent : Int
  subsidyReceived : Int
  subsidyGiven : Int
  totalSpent : Int
  remaining : Int
  utilizationPercent : Rat
  deriving DecidableEq

/-- `getBudgetBreakdown` (src/unnamed/part_000, lines 1298-1345). -/
def getBudgetBreakdown (s : Store) (categoryId : Nat) (month : String) : Breakdown :=
  match getBudget s categoryId month with
  | none =>
      ⟨categoryId, month, 0, 0, 0, 0, 0, 0, 0, 0, 0⟩
  | some budget =>
      let actualSpent := sumExpenses s categoryId month
      let subsidyReceived := sumSubsidiesReceived s categoryId month
      let subsidyGiven := sumSubsidiesGiven s categoryId month
      let totalSpent := actualSpent + subsidyGiven
      let remaining := budget.totalBudget + subsidyReceived - actualSpent - subsidyGiven
      let utilizationPercent : Rat :=
        if 0 < budget.budgetAmount then (totalSpent : Rat) / (budget.budgetAmount : Rat) * 100
        else 0
      ⟨categoryId, month, budget.budgetAmount, budget.carriedOver, budget.totalBudget,
       actualSpent, subsidyReceived, subsidyGiven, totalSpent, remaining,
       (round (utilizationPercent * 10) : Int) / 10⟩

/-- The context object the source builds at the insufficient-budget check of
`createExpense` (src/unnamed/part_000, lines 1034-1039). -/
structure ErrorContext where
  categoryId : Nat
  month : String
  required : Int
  available : Int
  deriving DecidableEq

/-- A thrown JS `Error`.  Per the ECMAScript `Error(message, options)`
constructor, the options argument contributes only a `cause` property when
one is present; any other properties of the options object are discarded.
The engine throws either `new Error(message)` or
`new Error(message, contextObject)` where the context object has no `cause`
property, so every error the engine raises has `cause = none`. -/
structure JsError where
  message : String
  cause : Option ErrorContext
  deriving DecidableEq

deriving instance DecidableEq for Except

/-- `setBudget` (src/unnamed/part_000, lines 796-827): upsert the
`(categoryId, month)` budget row, recomputing
`totalBudget = budgetAmount + carriedOver`; returns the stored record. -/
def setBudget (s : Store) (categoryId : Nat) (month : String)
    (budgetAmount : Int) (carriedOver : Int) : Budget × Store :=
  match getBudget s categoryId month with
  | some existing =>
      let updated : Budget :=
        ⟨existing.id, categoryId, month, budgetAmount, carriedOver, budgetAmount + carriedOver⟩
      (updated, { s with budgets := s.budgets.updateById existing.id (fun _ => updated) })
  | none =>
      let (b, t) := s.budgets.add
        (fun i => ⟨i, categoryId, month, budgetAmount, carriedOver, budgetAmount + carriedOver⟩)
      (b, { s with budgets := t })

/-- `markIncomeAsAllocated` (src/unnamed/part_000, lines 953-963):
`db.incomes.update(incomeId, { isAllocated: true })`; updating a missing id
is a no-op in Dexie. -/
def markIncomeAsAllocated (s : Store) (incomeId : Nat) : Store :=
  { s with incomes := s.incomes.updateById incomeId (fun inc => { inc with isAllocated := true }) }

/-- One entry of the allocation list passed to `allocateIncomeToBudgets`. -/
structure AllocInput where
  categoryId : Nat
  month : String
  amount : Int
  note : String
  deriving DecidableEq

/-- One entry of the results list `allocateIncomeToBudgets` returns. -/
structure AllocResult where
  allocationId : Nat
  budgetId : Nat
  categoryId : Nat
  amount : Int
  deriving DecidableEq

/-- JS truthiness of the `incomeId` argument (`if (incomeId)`,
src/unnamed/part_000, line 1009): `null` and `0` are falsy. -/
def jsTruthyId : Option Nat → Bool
  | none => false
  | some i => i != 0

/-- The loop body of `allocateIncomeToBudgets` (src/unnamed/part_000, lines
977-1006): get-or-create the target budget (creating with
`budgetAmount = amount`, `carriedOver = 0` when absent, otherwise adding
`amount` to both `budgetAmount` and `totalBudget`), then append one
Allocation provenance record. -/
def allocOne (incomeId : Option Nat) (tp : String) (s : Store) (a : AllocInput) :
    AllocResult × Store :=
  match getBudget s a.categoryId a.month with
  | none =>
      let (b, s1) := setBudget s a.categoryId a.month a.amount 0
      let (al, t) := s1.allocations.add
        (fun i => ⟨i, incomeId, b.id, a.amount, tp, a.note⟩)
      (⟨al.id, b.id, a.categoryId, a.amount⟩, { s1 with allocations := t })
  | some b =>
      let tb := s.budgets.updateById b.id
        (fun r => { r with budgetAmount := b.budgetAmount + a.amount,
                           totalBudget := b.totalBudget + a.amount })
      let s1 := { s with budgets := tb }
      let (al, t) := s1.allocations.add
        (fun i => ⟨i, incomeId, b.id, a.amount, tp, a.note⟩)
      (⟨al.id, b.id, a.categoryId, a.amount⟩, { s1 with allocations := t })

/-- The `for (const allocation of allocations)` loop, processing entries in
input order. -/
def allocLoop (incomeId : Option Nat) (tp : String) :
    Store → List AllocInput → List AllocResult × Store
  | s, [] => ([], s)
  | s, a :: rest =>
      let (r, s1) := allocOne incomeId tp s a
      let (rs, s2) := allocLoop incomeId tp s1 rest
      (r :: rs, s2)

/-- `allocateIncomeToBudgets` (src/unnamed/part_000, lines 973-1018):
process the entries in order, then mark the income allocated when
`incomeId` is truthy. -/
def allocateIncomeToBudgets (s : Store) (incomeId : Option Nat)
    (allocations : List AllocInput) (tp : String) : List AllocResult × Store :=
  let (results, s1) := allocLoop incomeId tp s allocations
  if jsTruthyId incomeId then (results, markIncomeAsAllocated s1 (incomeId.getD 0))
  else (results, s1)

/-- `createExpense` (src/unnamed/part_000, lines 1025-1061): authorize
against `getBudgetRemaining`; on insufficient budget throw
`new Error('BUDGET_INSUFFICIENT', { categoryId, month, required, available })`
-- whose options object carries no `cause` property, so the thrown error
consists of the message string alone -- writing nothing; otherwise append
one Expense with `isOverBudget = false`. -/
def createExpense (s : Store) (date : String) (categoryId : Nat)
    (amount : Int) (note : String) : Except JsError Expense × Store :=
  let month := getMonthFromDate date
  let remaining := getBudgetRemaining s categoryId month
  if remaining < amount then
    (Except.error ⟨"BUDGET_INSUFFICIENT", none⟩, s)
  else
    let (e, t) := s.expenses.add
      (fun i => ⟨i, date, month, categoryId, amount, note, false⟩)
    (Except.ok e, { s with expenses := t })

/-- The object `createExpenseWithSubsidy` returns on success. -/
structure SubsidyResult where
  expenseId : Nat
  subsidyId : Nat
  deficit : Int
  expense : Expense
  subsidy : Subsidy
  deriving DecidableEq

/-- `createExpenseWithSubsidy` (src/unnamed/part_000, lines 1072-1153):
compute `deficit = amount - recipientRemaining`; fail when the donor's
remaining is below the deficit; otherwise append the Expense
(`isOverBudget = true`), append the Subsidy for the deficit, and -- only
when the recipient already has a budget row -- add the deficit to that
row's `totalBudget` (leaving `budgetAmount` and `carriedOver` alone).  The
returned `subsidy.note` is the raw `subsidyNote` argument while the stored
row defaults an empty note, exactly as in the source. -/
def createExpenseWithSubsidy (s : Store) (date : String) (categoryId : Nat)
    (amount : Int) (fromCategoryId : Nat) (note : String) (subsidyNote : String) :
    Except JsError SubsidyResult × Store :=
  let month := getMonthFromDate date
  let donorRemaining := getBudgetRemaining s fromCategoryId month
  let recipientRemaining := getBudgetRemaining s categoryId month
  let deficit := amount - recipientRemaining
  if donorRemaining < deficit then
    (Except.error ⟨"Donor category does not have enough budget", none⟩, s)
  else
    let (e, te) := s.expenses.add
      (fun i => ⟨i, date, month, categoryId, amount, note, true⟩)
    let s1 := { s with expenses := te }
    let storedNote :=
      if subsidyNote = "" then "Budget insufficient, borrowed from donor category"
      else subsidyNote
    let (sub, ts) := s1.subsidies.add
      (fun i => ⟨i, e.id, fromCategoryId, categoryId, deficit, month, storedNote⟩)
    let s2 := { s1 with subsidies := ts }
    let s3 :=
      match getBudget s2 categoryId month with
      | some recipientBudget =>
          let tb := s2.budgets.updateById recipientBudget.id
            (fun r => { r with totalBudget := recipientBudget.totalBudget + deficit })
          { s2 with budgets := tb }
      | none => s2
    (Except.ok ⟨e.id, sub.id, deficit, e,
        ⟨sub.id, e.id, fromCategoryId, categoryId, deficit, month, subsidyNote⟩⟩, s3)

/-- `deleteExpense` (src/unnamed/part_000, lines 1185-1196): delete the
subsidies keyed by the expense id, then the expense itself. -/
def deleteExpense (s : Store) (expenseId : Nat) : Store :=
  { s with
    subsidies := { s.subsidies with
      rows := s.subsidies.rows.filter (fun x => x.expenseId != expenseId) },
    expenses := s.expenses.deleteById expenseId }

/-- The value `processCarryOver` resolves with: either the
`{ success: false, message }` nothing-to-carry object or the
`{ success: true, ... }` settlement summary. -/
inductive CarryResult where
  | nothingToCarry (message : String)
  | carried (carryoverId : Nat) (action : String) (fromMonth toMonth : String)
      (remainingBudget carriedAmount : Int)
  deriving DecidableEq

/-- `processCarryOver` (src/unnamed/part_000, lines 1415-1489): no-op when
the remaining balance is not positive; throw when an explicitly requested
amount exceeds the remaining balance; otherwise record the Carryover and,
for a positive carry, get-or-create the next period's budget (adding to
`carriedOver` and `totalBudget` only) and append a provenance Allocation
with a null income id. -/
def processCarryOver (s : Store) (categoryId : Nat) (fromMonth : String)
    (action : String) (carriedAmount : Option Int) : Except JsError CarryResult × Store :=
  let toMonth := nextMonthKey fromMonth
  let remainingBudget := getBudgetRemaining s categoryId fromMonth
  if remainingBudget ≤ 0 then
    (Except.ok (CarryResult.nothingToCarry "No remaining budget to carry over"), s)
  else
    let amountToCarry := match carriedAmount with | some a => a | none => remainingBudget
    if remainingBudget < amountToCarry then
      (Except.error ⟨"Cannot carry more than remaining budget", none⟩, s)
    else
      let (co, tc) := s.carryovers.add
        (fun i => ⟨i, categoryId, fromMonth, toMonth, remainingBudget,
          if action = "carry" then amountToCarry else 0, action,
          if action = "carry" then
            "Carried over " ++ toString amountToCarry ++ " to " ++ toMonth
          else "Reset " ++ toString remainingBudget ++ ", not carried over"⟩)
      let s1 := { s with carryovers := tc }
      let s3 :=
        if action = "carry" ∧ 0 < amountToCarry then
          let s2 :=
            match getBudget s1 categoryId toMonth with
            | some nextBudget =>
                let tb := s1.budgets.updateById nextBudget.id
                  (fun r => { r with carriedOver := nextBudget.carriedOver + amountToCarry,
                                     totalBudget := nextBudget.totalBudget + amountToCarry })
                { s1 with budgets := tb }
            | none => (setBudget s1 categoryId toMonth 0 amountToCarry).2
          match getBudget s2 categoryId toMonth with
          | some newBudget =>
              { s2 with allocations := (s2.allocations.add
                  (fun i => ⟨i, none, newBudget.id, amountToCarry, "carryover",
                    "Carried over from " ++ fromMonth⟩)).2 }
          | none => s2
        else s1
      (Except.ok (CarryResult.carried co.id action fromMonth toMonth remainingBudget
          (if action = "carry" then amountToCarry else 0)), s3)

/-- The backup document produced by `exportAllData` (src/unnamed/part_000,
lines 1552-1573).  Field presence matters to the import validation, so each
field is an `Option`; the wall-clock `exportDate` is not modelled. -/
structure BackupData where
  version : Option String
  envelopes : Option (List Envelope)
  categories : Option (List Category)
  budgets : Option (List Budget)
  incomes : Option (List Income)
  allocations : Option (List Allocation)
  expenses : Option (List Expense)
  subsidies : Option (List Subsidy)
  carryovers : Option (List Carryover)
  monthlySnapshots : Option (List MonthlySnapshot)
  deriving DecidableEq

/-- `exportAllData` (src/unnamed/part_000, lines 1552-1573). -/
def exportAllData (s : Store) : BackupData :=
  ⟨some "1.0", some s.envelopes.rows, some s.categories.rows, some s.budgets.rows,
   some s.incomes.rows, some s.allocations.rows, some s.expenses.rows,
   some s.subsidies.rows, some s.carryovers.rows, some s.monthlySnapshots.rows⟩

/-- The import step for one table: the table has been cleared; the array is
bulk-added only when present and non-empty (`if (data.xs?.length)`,
src/unnamed/part_000, lines 1597-1605). -/
def loadTable [HasId α] (t : Table α) (data : Option (List α)) : Table α :=
  match data with
  | some l => if l.isEmpty then t.clearTable else (t.clearTable).bulkAdd l
  | none => t.clearTable

/-- The `{ success, message }` object `importAllData` resolves with. -/
structure ImportResult where
  success : Bool
  message : String
  deriving DecidableEq

/-- `importAllData` (src/unnamed/part_000, lines 1578-1612): reject the
document when `version` or `envelopes` is falsy (an absent field, or the
empty string for `version`; an array, even empty, is truthy); otherwise
clear every table and bulk-load each present non-empty array.  The source
clears all nine tables before loading any; the tables are independent, so
the per-table clear-then-load below is the same store. -/
def importAllData (s : Store) (data : BackupData) : Except JsError ImportResult × Store :=
  if data.version = none ∨ data.version = some "" ∨ data.envelopes = none then
    (Except.error ⟨"Invalid backup file format", none⟩, s)
  else
    (Except.ok ⟨true, "Data imported successfully"⟩,
      ⟨loadTable s.envelopes data.envelopes,
       loadTable s.categories data.categories,
       loadTable s.budgets data.budgets,
       loadTable s.incomes data.incomes,
       loadTable s.allocations data.allocations,
       loadTable s.expenses data.expenses,
       loadTable s.subsidies data.subsidies,
       loadTable s.carryovers data.carryovers,
       loadTable s.monthlySnapshots data.monthlySnapshots⟩)

/-! ### Basic lemmas about the store primitives -/

theorem foldl_add_map_sum (l : List α) (f : α → Int) (a : Int) :
    l.foldl (fun acc x => acc + f x) a = a + (l.map f).sum := by
  induction l generalizing a with
  | nil => simp
  | cons x t ih => simp [ih, add_assoc]

theorem sumExpenses_eq (s : Store) (c : Nat) (m : String) :
    sumExpenses s c m =
      ((s.expenses.rows.filter (fun e => e.categoryId == c && e.month == m)).map
        Expense.amount).sum := by
  unfold sumExpenses getExpensesByCategory
  rw [foldl_add_map_sum]
  simp

theorem sumSubsidiesGiven_eq (s : Store) (c : Nat) (m : String) :
    sumSubsidiesGiven s c m =
      ((s.subsidies.rows.filter (fun x => x.fromCategoryId == c && x.month == m)).map
        Subsidy.amount).sum := by
  unfold sumSubsidiesGiven getSubsidiesGiven
  rw [foldl_add_map_sum]
  simp

theorem sumSubsidiesReceived_eq (s : Store) (c : Nat) (m : String) :
    sumSubsidiesReceived s c m =
      ((s.subsidies.rows.filter (fun x => x.toCategoryId == c && x.month == m)).map
        Subsidy.amount).sum := by
  unfold sumSubsidiesReceived getSubsidiesReceived
  rw [foldl_add_map_sum]
  simp

@[simp] theorem getId_budget (b : Budget) : HasId.getId b = b.id := rfl

@[simp] theorem getId_income (i : Income) : HasId.getId i = i.id := rfl

@[simp] theorem getId_expense (e : Expense) : HasId.getId e = e.id := rfl

@[simp] theorem getId_allocation (a : Allocation) : HasId.getId a = a.id := rfl

@[simp] theorem getId_subsidy (x : Subsidy) : HasId.getId x = x.id := rfl

@[simp] theorem getId_carryover (c : Carryover) : HasId.getId c = c.id := rfl

theorem find?_map_pres (l : List β) (p : β → Bool) (g : β → β)
    (hp : ∀ r, p (g r) = p r) : (l.map g).find? p = (l.find? p).map g := by
  induction l with
  | nil => simp
  | cons a t ih =>
      simp only [List.map_cons, List.find?]
      rw [hp a]
      cases p a <;> simp [ih]

/-! ### Claim C3 -/

/-- C3: for every category and period, in every store state (reachable or
not), `getBudgetRemaining` equals the `remaining` field of
`getBudgetBreakdown`, including the case where no Budget row exists for the
pair. -/
theorem claim3_remaining_matches_breakdown (s : Store) (categoryId : Nat) (month : String) :
    getBudgetRemaining s categoryId month =
      (getBudgetBreakdown s categoryId month).remaining := by
  unfold getBudgetRemaining getBudgetBreakdown
  cases getBudget s categoryId month <;> simp

/-! ### Claim C10 -/

theorem loadTable_some_rows [HasId α] (t : Table α) (l : List α) :
    (loadTable t (some l)).rows = l := by
  unfold loadTable Table.clearTable Table.bulkAdd
  cases l <;> simp

/-- C10: importing the document produced by `exportAllData` succeeds and
restores every entity table to exactly the records (fields and ids) it held
before the round trip. -/
theorem claim10_export_import_roundtrip (s : Store) :
    (importAllData s (exportAllData s)).1 = Except.ok ⟨true, "Data imported successfully"⟩ ∧
    (importAllData s (exportAllData s)).2.envelopes.rows = s.envelopes.rows ∧
    (importAllData s (exportAllData s)).2.categories.rows = s.categories.rows ∧
    (importAllData s (exportAllData s)).2.budgets.rows = s.budgets.rows ∧
    (importAllData s (exportAllData s)).2.incomes.rows = s.incomes.rows ∧
    (importAllData s (exportAllData s)).2.allocations.rows = s.allocations.rows ∧
    (importAllData s (exportAllData s)).2.expenses.rows = s.expenses.rows ∧
    (importAllData s (exportAllData s)).2.subsidies.rows = s.subsidies.rows ∧
    (importAllData s (exportAllData s)).2.carryovers.rows = s.carryovers.rows ∧
    (importAllData s (exportAllData s)).2.monthlySnapshots.rows = s.monthlySnapshots.rows := by
  have hval : ¬((exportAllData s).version = none ∨ (exportAllData s).version = some "" ∨
      (exportAllData s).envelopes = none) := by
    unfold exportAllData
    rintro (h | h | h) <;> simp at h
  unfold importAllData
  rw [if_neg hval]
  unfold exportAllData
  simp [loadTable_some_rows]

/-! ### Claim C4 -/

/-- A store holding a single budget of 100 for category 1 in 2025-02, used
to exercise the insufficient-budget path of `createExpense`. -/
def claim4Store : Store :=
  { emptyStore with budgets := ⟨[⟨1, 1, "2025-02", 100, 0, 100⟩], 2⟩ }

/-- C4 counterexample: the claim asserts that the insufficient-budget
failure carries the structured fields
`{categoryId, period, required, available}` distinguishable without string
matching.  At this concrete input `createExpense` fails, but the error it
raises is the bare message string with no attached context
(`cause = none`): the source throws
`new Error('BUDGET_INSUFFICIENT', {...})` and the ECMAScript Error
constructor discards every options property other than `cause`, so a caller
can only branch by matching the message string (as the source itself does at
src/unnamed/part_000, line 1055). -/
theorem claim4_counterexample :
    createExpense claim4Store "2025-02-05" 1 200 "x" =
      (Except.error ⟨"BUDGET_INSUFFICIENT", none⟩, claim4Store) := by
  decide

/-- C4 amended: when the remaining budget is below the amount,
`createExpense` fails with the plain `BUDGET_INSUFFICIENT` error (message
string only, no structured context fields) and writes nothing; otherwise it
appends exactly one Expense with `isOverBudget = false` and changes no
other record. -/
theorem claim4_createExpense_amended (s : Store) (date : String) (categoryId : Nat)
    (amount : Int) (note : String) :
    (getBudgetRemaining s categoryId (getMonthFromDate date) < amount →
      createExpense s date categoryId amount note =
        (Except.error ⟨"BUDGET_INSUFFICIENT", none⟩, s)) ∧
    (amount ≤ getBudgetRemaining s categoryId (getMonthFromDate date) →
      ∃ e, createExpense s date categoryId amount note =
          (Except.ok e, { s with expenses := ⟨s.expenses.rows ++ [e], s.expenses.nextId + 1⟩ }) ∧
        e.isOverBudget = false ∧ e.categoryId = categoryId ∧ e.amount = amount ∧
        e.month = getMonthFromDate date ∧ e.date = date) := by
  constructor
  · intro h
    unfold createExpense
    rw [if_pos h]
  · intro h
    unfold createExpense Table.add
    rw [if_neg (not_lt.mpr h)]
    exact ⟨_, rfl, rfl, rfl, rfl, rfl, rfl⟩

/-- C4 witness: the amended theorem applied on `claim4Store`, once on the
failing side (remaining 100 < 200) and once on the authorized side
(50 ≤ 100). -/
theorem claim4_witness :
    (getBudgetRemaining claim4Store 1 (getMonthFromDate "2025-02-05") < 200 ∧
      createExpense claim4Store "2025-02-05" 1 200 "x" =
        (Except.error ⟨"BUDGET_INSUFFICIENT", none⟩, claim4Store)) ∧
    ((50 : Int) ≤ getBudgetRemaining claim4Store 1 (getMonthFromDate "2025-02-05") ∧
      ∃ e, createExpense claim4Store "2025-02-05" 1 50 "x" =
          (Except.ok e,
            { claim4Store with expenses :=
              ⟨claim4Store.expenses.rows ++ [e], claim4Store.expenses.nextId + 1⟩ }) ∧
        e.isOverBudget = false ∧ e.categoryId = 1 ∧ e.amount = 50 ∧
        e.month = getMonthFromDate "2025-02-05" ∧ e.date = "2025-02-05") :=
  ⟨⟨by decide, (claim4_createExpense_amended claim4Store "2025-02-05" 1 200 "x").1 (by decide)⟩,
   ⟨by decide, (claim4_createExpense_amended claim4Store "2025-02-05" 1 50 "x").2 (by decide)⟩⟩

/-! ### Claim C5 -/

theorem getBudget_updateById (s : Store) (i : Nat) (f : Budget → Budget)
    (hc : ∀ r, (f r).categoryId = r.categoryId) (hm : ∀ r, (f r).month = r.month)
    (c : Nat) (m : String) :
    getBudget { s with budgets := s.budgets.updateById i f } c m =
      (getBudget s c m).map (fun r => if r.id = i then f r else r) := by
  unfold getBudget Table.updateById
  simp only [getId_budget]
  have hp : ∀ r : Budget,
      ((if r.id = i then f r else r).categoryId == c &&
        (if r.id = i then f r else r).month == m) = (r.categoryId == c && r.month == m) := by
    intro r
    by_cases h : r.id = i <;> simp [h, hc, hm]
  rw [find?_map_pres _ _ _ hp]

theorem find?_map_budgetAmount_setTotal (l : List Budget) (i : Nat) (v : Int)
    (c : Nat) (m : String) :
    ((l.map (fun r => if r.id = i then { r with totalBudget := v } else r)).find?
        (fun b => b.categoryId == c && b.month == m)).map Budget.budgetAmount =
      (l.find? (fun b => b.categoryId == c && b.month == m)).map Budget.budgetAmount := by
  have hp : ∀ r : Budget,
      ((if r.id = i then { r with totalBudget := v } else r).categoryId == c &&
        (if r.id = i then { r with totalBudget := v } else r).month == m) =
      (r.categoryId == c && r.month == m) := by
    intro r
    by_cases h : r.id = i <;> simp [h]
  rw [find?_map_pres _ _ _ hp, Option.map_map]
  apply congrFun
  apply congrArg
  funext r
  by_cases h : r.id = i <;> simp [h]

/-- The whole effect of `createExpenseWithSubsidy` on the budgets table
never touches a `budgetAmount` field: for every pair, the looked-up
`budgetAmount` is the same before and after the call, whether it failed or
succeeded. -/
theorem subsidy_getBudget_budgetAmount (s : Store) (date : String) (categoryId : Nat)
    (amount : Int) (fromCategoryId : Nat) (note subsidyNote : String) (x : Nat) (mm : String) :
    (getBudget (createExpenseWithSubsidy s date categoryId amount
        fromCategoryId note subsidyNote).2 x mm).map Budget.budgetAmount =
      (getBudget s x mm).map Budget.budgetAmount := by
  simp only [createExpenseWithSubsidy, Table.add]
  by_cases hd : getBudgetRemaining s fromCategoryId (getMonthFromDate date) <
      amount - getBudgetRemaining s categoryId (getMonthFromDate date)
  · rw [if_pos hd]
  · rw [if_neg hd]
    simp only
    split
    · next recipientBudget hrb =>
        unfold getBudget Table.updateById
        simp only [getId_budget]
        exact find?_map_budgetAmount_setTotal s.budgets.rows recipientBudget.id
          (recipientBudget.totalBudget +
            (amount - getBudgetRemaining s categoryId (getMonthFromDate date))) x mm
    · rfl

/-- C5: after any successful `createExpenseWithSubsidy`, the `budgetAmount`
of both the donor category's and the recipient category's Budget for the
expense's period is unchanged (the operation rewrites only the recipient's
`totalBudget`). -/
theorem claim5_subsidy_preserves_budgetAmount (s : Store) (date : String) (categoryId : Nat)
    (amount : Int) (fromCategoryId : Nat) (note subsidyNote : String)
    (h : (createExpenseWithSubsidy s date categoryId amount fromCategoryId note
      subsidyNote).1.isOk = true) :
    ((getBudget (createExpenseWithSubsidy s date categoryId amount fromCategoryId note
        subsidyNote).2 fromCategoryId (getMonthFromDate date)).map Budget.budgetAmount =
      (getBudget s fromCategoryId (getMonthFromDate date)).map Budget.budgetAmount) ∧
    ((getBudget (createExpenseWithSubsidy s date categoryId amount fromCategoryId note
        subsidyNote).2 categoryId (getMonthFromDate date)).map Budget.budgetAmount =
      (getBudget s categoryId (getMonthFromDate date)).map Budget.budgetAmount) :=
  ⟨subsidy_getBudget_budgetAmount .., subsidy_getBudget_budgetAmount ..⟩

/-- A store with budgets for categories 1 (recipient) and 2 (donor) in
2025-02, on which the subsidy operation succeeds. -/
def claim5Store : Store :=
  { emptyStore with budgets :=
      ⟨[⟨1, 1, "2025-02", 3000000, 0, 3000000⟩, ⟨2, 2, "2025-02", 1000000, 0, 1000000⟩], 3⟩ }

/-- C5 witness: the theorem applied to a concrete successful subsidy call. -/
theorem claim5_witness :
    (createExpenseWithSubsidy claim5Store "2025-02-05" 1 3200000 2 "lunch"
      "borrow").1.isOk = true ∧
    (((getBudget (createExpenseWithSubsidy claim5Store "2025-02-05" 1 3200000 2 "lunch"
        "borrow").2 2 (getMonthFromDate "2025-02-05")).map Budget.budgetAmount =
      (getBudget claim5Store 2 (getMonthFromDate "2025-02-05")).map Budget.budgetAmount) ∧
    ((getBudget (createExpenseWithSubsidy claim5Store "2025-02-05" 1 3200000 2 "lunch"
        "borrow").2 1 (getMonthFromDate "2025-02-05")).map Budget.budgetAmount =
      (getBudget claim5Store 1 (getMonthFromDate "2025-02-05")).map Budget.budgetAmount)) :=
  ⟨by decide,
   claim5_subsidy_preserves_budgetAmount claim5Store "2025-02-05" 1 3200000 2 "lunch" "borrow"
     (by decide)⟩

/-! ### Claim C8 -/

/-- C8: `processCarryOver` fails (with the excess-carry error, the
condition the specification names ExcessCarryAmount) exactly when the
remaining balance is positive and an explicitly requested amount exceeds
it, and then writes nothing; when the remaining balance is not positive it
is a no-op resolving with the nothing-to-carry result and writes no
record. -/
theorem claim8_carryover_guard (s : Store) (categoryId : Nat) (fromMonth action : String)
    (carriedAmount : Option Int) :
    ((processCarryOver s categoryId fromMonth action carriedAmount).1 =
        Except.error ⟨"Cannot carry more than remaining budget", none⟩ ↔
      (0 < getBudgetRemaining s categoryId fromMonth ∧
        ∃ a, carriedAmount = some a ∧ getBudgetRemaining s categoryId fromMonth < a)) ∧
    ((processCarryOver s categoryId fromMonth action carriedAmount).1 =
        Except.error ⟨"Cannot carry more than remaining budget", none⟩ →
      (processCarryOver s categoryId fromMonth action carriedAmount).2 = s) ∧
    (getBudgetRemaining s categoryId fromMonth ≤ 0 →
      processCarryOver s categoryId fromMonth action carriedAmount =
        (Except.ok (CarryResult.nothingToCarry "No remaining budget to carry over"), s)) := by
  simp only [processCarryOver, Table.add]
  by_cases hr : getBudgetRemaining s categoryId fromMonth ≤ 0
  · rw [if_pos hr]
    refine ⟨?_, ?_, ?_⟩
    · constructor
      · intro h
        simp at h
      · rintro ⟨h1, -⟩
        exact absurd h1 (not_lt.mpr hr)
    · intro h
      simp at h
    · intro _
      rfl
  · rw [if_neg hr]
    have hp : 0 < getBudgetRemaining s categoryId fromMonth := lt_of_not_le hr
    cases carriedAmount with
    | none =>
        rw [if_neg (lt_irrefl _)]
        refine ⟨?_, ?_, ?_⟩
        · constructor
          · intro h
            simp at h
          · rintro ⟨-, a, ha, -⟩
            cases ha
        · intro h
          simp at h
        · intro h
          exact absurd hp (not_lt.mpr h)
    | some a =>
        by_cases h2 : getBudgetRemaining s categoryId fromMonth < a
        · rw [if_pos h2]
          refine ⟨?_, ?_, ?_⟩
          · exact iff_of_true rfl ⟨hp, a, rfl, h2⟩
          · intro _
            rfl
          · intro h
            exact absurd hp (not_lt.mpr h)
        · rw [if_neg h2]
          refine ⟨?_, ?_, ?_⟩
          · constructor
            · intro h
              simp at h
            · rintro ⟨-, a', ha', hlt⟩
              cases ha'
              exact absurd hlt h2
          · intro h
            simp at h
          · intro h
            exact absurd hp (not_lt.mpr h)

/-- A store where category 1 has remaining 500000 for 2025-03 and category
2 has no budget row. -/
def claim8Store : Store :=
  { emptyStore with budgets := ⟨[⟨1, 1, "2025-03", 500000, 0, 500000⟩], 2⟩ }

/-- C8 witness: Scenario E (requesting 600000 of a 500000 remaining fails
and writes nothing) plus the nothing-to-carry no-op on a category with no
budget, both by the theorem. -/
theorem claim8_witness :
    ((processCarryOver claim8Store 1 "2025-03" "carry" (some 600000)).1 =
      Except.error ⟨"Cannot carry more than remaining budget", none⟩) ∧
    ((processCarryOver claim8Store 1 "2025-03" "carry" (some 600000)).2 = claim8Store) ∧
    (processCarryOver claim8Store 2 "2025-03" "carry" none =
      (Except.ok (CarryResult.nothingToCarry "No remaining budget to carry over"),
        claim8Store)) := by
  have h1 := (claim8_carryover_guard claim8Store 1 "2025-03" "carry" (some 600000)).1.mpr
    ⟨by decide, 600000, rfl, by decide⟩
  exact ⟨h1, (claim8_carryover_guard claim8Store 1 "2025-03" "carry" (some 600000)).2.1 h1,
    (claim8_carryover_guard claim8Store 2 "2025-03" "carry" none).2.2 (by decide)⟩

/-! ### Claim C7 -/

theorem find?_singleton (x : β) (p : β → Bool) :
    [x].find? p = if p x then some x else none := by
  cases hpx : p x <;> simp [List.find?, hpx]

/-- Projection of `getBudget` through an explicit store record, used to
bring goals produced by unfolding the operations down to list level. -/
theorem getBudget_mk (e : Table Envelope) (ct : Table Category) (tb : Table Budget)
    (inc : Table Income) (al : Table Allocation) (ex : Table Expense) (su : Table Subsidy)
    (ca : Table Carryover) (ms : Table MonthlySnapshot) (c : Nat) (m : String) :
    getBudget ⟨e, ct, tb, inc, al, ex, su, ca, ms⟩ c m =
      tb.rows.find? (fun b => b.categoryId == c && b.month == m) := rfl

/-- C7: a carry of an explicitly requested positive amount within the
remaining balance writes exactly one Carryover record carrying that amount,
gets-or-creates the next calendar period's Budget adding the amount to its
`carriedOver` and `totalBudget` while leaving `budgetAmount` as it was (zero
when created), and writes exactly one Allocation record with a null income
id, the amount, type carryover, pointing at that next-period Budget. -/
theorem claim7_carry_effect (s : Store) (categoryId : Nat) (fromMonth : String) (a : Int)
    (hpos : 0 < getBudgetRemaining s categoryId fromMonth)
    (ha : 0 < a) (hle : a ≤ getBudgetRemaining s categoryId fromMonth) :
    ∃ c al nb,
      (processCarryOver s categoryId fromMonth "carry" (some a)).1 =
        Except.ok (CarryResult.carried c.id "carry" fromMonth (nextMonthKey fromMonth)
          (getBudgetRemaining s categoryId fromMonth) a) ∧
      (processCarryOver s categoryId fromMonth "carry" (some a)).2.carryovers.rows =
        s.carryovers.rows ++ [c] ∧
      c.categoryId = categoryId ∧ c.fromMonth = fromMonth ∧
      c.toMonth = nextMonthKey fromMonth ∧ c.carriedAmount = a ∧ c.action = "carry" ∧
      c.remainingBudget = getBudgetRemaining s categoryId fromMonth ∧
      getBudget (processCarryOver s categoryId fromMonth "carry" (some a)).2
          categoryId (nextMonthKey fromMonth) = some nb ∧
      nb.budgetAmount =
        (getBudget s categoryId (nextMonthKey fromMonth)).elim 0 Budget.budgetAmount ∧
      nb.carriedOver =
        (getBudget s categoryId (nextMonthKey fromMonth)).elim 0 Budget.carriedOver + a ∧
      nb.totalBudget =
        (getBudget s categoryId (nextMonthKey fromMonth)).elim 0 Budget.totalBudget + a ∧
      (processCarryOver s categoryId fromMonth "carry" (some a)).2.allocations.rows =
        s.allocations.rows ++ [al] ∧
      al.incomeId = none ∧ al.amount = a ∧ al.type = "carryover" ∧ al.budgetId = nb.id := by
  have hnle : ¬ getBudgetRemaining s categoryId fromMonth ≤ 0 := not_le.mpr hpos
  have hnlt : ¬ getBudgetRemaining s categoryId fromMonth < a := not_lt.mpr hle
  simp only [processCarryOver, Table.add]
  rw [if_neg hnle, if_neg hnlt]
  simp only [eq_self_iff_true, if_true, true_and, getBudget_mk]
  rw [if_pos ha]
  cases hl : s.budgets.rows.find?
      (fun b => b.categoryId == categoryId && b.month == nextMonthKey fromMonth) with
  | some nb0 =>
      have hp : ∀ r : Budget,
          (((if r.id = nb0.id then
              { r with carriedOver := nb0.carriedOver + a,
                       totalBudget := nb0.totalBudget + a } else r).categoryId == categoryId) &&
            ((if r.id = nb0.id then
              { r with carriedOver := nb0.carriedOver + a,
                       totalBudget := nb0.totalBudget + a } else r).month ==
              nextMonthKey fromMonth)) =
          ((r.categoryId == categoryId) && (r.month == nextMonthKey fromMonth)) := by
        intro r
        by_cases hid : r.id = nb0.id <;> simp [hid]
      have hup : getBudget
          { s with
            carryovers := ⟨s.carryovers.rows ++ [⟨s.carryovers.nextId, categoryId, fromMonth,
              nextMonthKey fromMonth, getBudgetRemaining s categoryId fromMonth, a, "carry",
              "Carried over " ++ toString a ++ " to " ++ nextMonthKey fromMonth⟩],
              s.carryovers.nextId + 1⟩,
            budgets := s.budgets.updateById nb0.id
              (fun r => { r with carriedOver := nb0.carriedOver + a,
                                 totalBudget := nb0.totalBudget + a }) }
          categoryId (nextMonthKey fromMonth) =
          some { nb0 with carriedOver := nb0.carriedOver + a,
                          totalBudget := nb0.totalBudget + a } := by
        simp only [getBudget, Table.updateById, getId_budget]
        rw [find?_map_pres _ _ _ hp, hl]
        simp
      split
      · next newBudget hnew =>
          have hne : newBudget =
              { nb0 with carriedOver := nb0.carriedOver + a,
                         totalBudget := nb0.totalBudget + a } :=
            Option.some.inj (hnew.symm.trans hup)
          refine ⟨⟨s.carryovers.nextId, categoryId, fromMonth, nextMonthKey fromMonth,
              getBudgetRemaining s categoryId fromMonth, a, "carry",
              "Carried over " ++ toString a ++ " to " ++ nextMonthKey fromMonth⟩,
            ⟨s.allocations.nextId, none, newBudget.id, a, "carryover",
              "Carried over from " ++ fromMonth⟩,
            newBudget, rfl, rfl, rfl, rfl, rfl, rfl, rfl, rfl, hnew, ?_, ?_, ?_,
            rfl, rfl, rfl, rfl, rfl⟩
          · rw [hne, show getBudget s categoryId (nextMonthKey fromMonth) = some nb0 from hl]
            rfl
          · rw [hne, show getBudget s categoryId (nextMonthKey fromMonth) = some nb0 from hl]
            rfl
          · rw [hne, show getBudget s categoryId (nextMonthKey fromMonth) = some nb0 from hl]
            rfl
      · next hnew =>
          exact absurd (hup.symm.trans hnew) (by simp)
  | none =>
      have hsetB : setBudget
          { s with
            carryovers := ⟨s.carryovers.rows ++ [⟨s.carryovers.nextId, categoryId, fromMonth,
              nextMonthKey fromMonth, getBudgetRemaining s categoryId fromMonth, a, "carry",
              "Carried over " ++ toString a ++ " to " ++ nextMonthKey fromMonth⟩],
              s.carryovers.nextId + 1⟩ }
          categoryId (nextMonthKey fromMonth) 0 a =
          (⟨s.budgets.nextId, categoryId, nextMonthKey fromMonth, 0, a, 0 + a⟩,
           { s with
             carryovers := ⟨s.carryovers.rows ++ [⟨s.carryovers.nextId, categoryId, fromMonth,
               nextMonthKey fromMonth, getBudgetRemaining s categoryId fromMonth, a, "carry",
               "Carried over " ++ toString a ++ " to " ++ nextMonthKey fromMonth⟩],
               s.carryovers.nextId + 1⟩,
             budgets := ⟨s.budgets.rows ++
               [⟨s.budgets.nextId, categoryId, nextMonthKey fromMonth, 0, a, 0 + a⟩],
               s.budgets.nextId + 1⟩ }) := by
        unfold setBudget
        simp only [getBudget_mk]
        rw [hl]
        rfl
      have hup2 : getBudget (setBudget
          { s with
            carryovers := ⟨s.carryovers.rows ++ [⟨s.carryovers.nextId, categoryId, fromMonth,
              nextMonthKey fromMonth, getBudgetRemaining s categoryId fromMonth, a, "carry",
              "Carried over " ++ toString a ++ " to " ++ nextMonthKey fromMonth⟩],
              s.carryovers.nextId + 1⟩ }
          categoryId (nextMonthKey fromMonth) 0 a).2 categoryId (nextMonthKey fromMonth) =
          some ⟨s.budgets.nextId, categoryId, nextMonthKey fromMonth, 0, a, 0 + a⟩ := by
        rw [hsetB]
        simp only [getBudget_mk]
        rw [List.find?_append, hl]
        simp [find?_singleton]
      split
      · next newBudget hnew =>
          have hne : newBudget =
              ⟨s.budgets.nextId, categoryId, nextMonthKey fromMonth, 0, a, 0 + a⟩ :=
            Option.some.inj (hnew.symm.trans hup2)
          refine ⟨⟨s.carryovers.nextId, categoryId, fromMonth, nextMonthKey fromMonth,
              getBudgetRemaining s categoryId fromMonth, a, "carry",
              "Carried over " ++ toString a ++ " to " ++ nextMonthKey fromMonth⟩,
            ⟨s.allocations.nextId, none, newBudget.id, a, "carryover",
              "Carried over from " ++ fromMonth⟩,
            newBudget, rfl, ?_, rfl, rfl, rfl, rfl, rfl, rfl, hnew, ?_, ?_, ?_,
            ?_, rfl, rfl, rfl, rfl⟩
          · rw [hsetB]
          · rw [hne, show getBudget s categoryId (nextMonthKey fromMonth) = none from hl]
            simp
          · rw [hne, show getBudget s categoryId (nextMonthKey fromMonth) = none from hl]
            simp
          · rw [hne, show getBudget s categoryId (nextMonthKey fromMonth) = none from hl]
            simp
          · rw [hsetB]
      · next hnew =>
          exact absurd (hup2.symm.trans hnew) (by simp)

/-- A store where category 1 has remaining 500000 for 2025-03 (Scenario D
context). -/
def claim7Store : Store :=
  { emptyStore with budgets := ⟨[⟨1, 1, "2025-03", 500000, 0, 500000⟩], 2⟩ }

/-- C7 witness: Scenario D through the theorem, carrying 300000 of the
500000 remaining from 2025-03 into 2025-04. -/
theorem claim7_witness :
    (0 < getBudgetRemaining claim7Store 1 "2025-03" ∧ (0 : Int) < 300000 ∧
      (300000 : Int) ≤ getBudgetRemaining claim7Store 1 "2025-03") ∧
    (∃ c al nb,
      (processCarryOver claim7Store 1 "2025-03" "carry" (some 300000)).1 =
        Except.ok (CarryResult.carried c.id "carry" "2025-03" (nextMonthKey "2025-03")
          (getBudgetRemaining claim7Store 1 "2025-03") 300000) ∧
      (processCarryOver claim7Store 1 "2025-03" "carry" (some 300000)).2.carryovers.rows =
        claim7Store.carryovers.rows ++ [c] ∧
      c.categoryId = 1 ∧ c.fromMonth = "2025-03" ∧
      c.toMonth = nextMonthKey "2025-03" ∧ c.carriedAmount = 300000 ∧ c.action = "carry" ∧
      c.remainingBudget = getBudgetRemaining claim7Store 1 "2025-03" ∧
      getBudget (processCarryOver claim7Store 1 "2025-03" "carry" (some 300000)).2
          1 (nextMonthKey "2025-03") = some nb ∧
      nb.budgetAmount =
        (getBudget claim7Store 1 (nextMonthKey "2025-03")).elim 0 Budget.budgetAmount ∧
      nb.carriedOver =
        (getBudget claim7Store 1 (nextMonthKey "2025-03")).elim 0 Budget.carriedOver + 300000 ∧
      nb.totalBudget =
        (getBudget claim7Store 1 (nextMonthKey "2025-03")).elim 0 Budget.totalBudget + 300000 ∧
      (processCarryOver claim7Store 1 "2025-03" "carry" (some 300000)).2.allocations.rows =
        claim7Store.allocations.rows ++ [al] ∧
      al.incomeId = none ∧ al.amount = 300000 ∧ al.type = "carryover" ∧ al.budgetId = nb.id) :=
  ⟨⟨by decide, by decide, by decide⟩,
   claim7_carry_effect claim7Store 1 "2025-03" 300000 (by decide) (by decide) (by decide)⟩

/-! ### Claim C6 -/

/-- A store where donor category 2 has a budget of 500000 for 2025-02 and
recipient category 1 has no Budget row at all. -/
def claim6Store : Store :=
  { emptyStore with budgets := ⟨[⟨1, 2, "2025-02", 500000, 0, 500000⟩], 2⟩ }

/-- C6 counterexample: a successful `createExpenseWithSubsidy` whose
recipient has no Budget row leaves the recipient still without one -- the
recipient-side `totalBudget` update is guarded by `if (recipientBudget)`
and is silently skipped, so subsidy receipt does not create a Budget row. -/
theorem claim6_counterexample :
    (createExpenseWithSubsidy claim6Store "2025-02-05" 1 300000 2 "" "").1.isOk = true ∧
    getBudget (createExpenseWithSubsidy claim6Store "2025-02-05" 1 300000 2 "" "").2
      1 "2025-02" = none := by
  decide

/-- C6 amended: a Budget row for a fresh `(categoryId, period)` pair is
created by the first allocation targeting it (with `budgetAmount` equal to
the allocated amount and `carriedOver = 0`), but NOT by subsidy receipt: a
successful `createExpenseWithSubsidy` whose recipient has no Budget row for
the period leaves the recipient still without a Budget row (the deficit
increase of capacity is skipped). -/
theorem claim6_lazy_creation_amended :
    (∀ (s : Store) (incomeId : Option Nat) (c : Nat) (m : String) (amt : Int) (nt tp : String),
      getBudget s c m = none →
      ∃ b, getBudget (allocateIncomeToBudgets s incomeId [⟨c, m, amt, nt⟩] tp).2 c m = some b ∧
        b.budgetAmount = amt ∧ b.carriedOver = 0 ∧ b.totalBudget = amt) ∧
    (∀ (s : Store) (date : String) (c : Nat) (amt : Int) (fromC : Nat) (nt snt : String),
      getBudget s c (getMonthFromDate date) = none →
      (createExpenseWithSubsidy s date c amt fromC nt snt).1.isOk = true →
      getBudget (createExpenseWithSubsidy s date c amt fromC nt snt).2
        c (getMonthFromDate date) = none) := by
  constructor
  · intro s incomeId c m amt nt tp h
    simp only [allocateIncomeToBudgets, allocLoop, allocOne, setBudget, Table.add]
    rw [h]
    refine ⟨⟨s.budgets.nextId, c, m, amt, 0, amt + 0⟩, ?_, rfl, rfl, by simp⟩
    cases hj : jsTruthyId incomeId with
    | false =>
        rw [if_neg Bool.false_ne_true]
        simp only [markIncomeAsAllocated, getBudget_mk]
        rw [List.find?_append,
          show s.budgets.rows.find? (fun b => b.categoryId == c && b.month == m) = none from h]
        simp [find?_singleton]
    | true =>
        rw [if_pos rfl]
        simp only [markIncomeAsAllocated, getBudget_mk]
        rw [List.find?_append,
          show s.budgets.rows.find? (fun b => b.categoryId == c && b.month == m) = none from h]
        simp [find?_singleton]
  · intro s date c amt fromC nt snt h hok
    simp only [createExpenseWithSubsidy, Table.add]
    by_cases hd : getBudgetRemaining s fromC (getMonthFromDate date) <
        amt - getBudgetRemaining s c (getMonthFromDate date)
    · exfalso
      simp only [createExpenseWithSubsidy, Table.add] at hok
      rw [if_pos hd] at hok
      simp [Except.isOk, Except.toBool] at hok
    · rw [if_neg hd]
      simp only [getBudget_mk]
      rw [show s.budgets.rows.find?
        (fun b => b.categoryId == c && b.month == getMonthFromDate date) = none from h]
      exact show s.budgets.rows.find?
        (fun b => b.categoryId == c && b.month == getMonthFromDate date) = none from h

/-- C6 witness: the amended theorem applied concretely -- Scenario C's
lazy creation by allocation on the empty store, and the subsidy-receipt
non-creation on `claim6Store`. -/
theorem claim6_witness :
    (getBudget emptyStore 1 "2025-03" = none ∧
      ∃ b, getBudget (allocateIncomeToBudgets emptyStore (some 1)
          [⟨1, "2025-03", 1000000, ""⟩] "income").2 1 "2025-03" = some b ∧
        b.budgetAmount = 1000000 ∧ b.carriedOver = 0 ∧ b.totalBudget = 1000000) ∧
    (getBudget claim6Store 1 (getMonthFromDate "2025-02-05") = none ∧
      (createExpenseWithSubsidy claim6Store "2025-02-05" 1 300000 2 "" "").1.isOk = true ∧
      getBudget (createExpenseWithSubsidy claim6Store "2025-02-05" 1 300000 2 "" "").2
        1 (getMonthFromDate "2025-02-05") = none) :=
  ⟨⟨by decide, claim6_lazy_creation_amended.1 emptyStore (some 1) 1 "2025-03" 1000000 ""
      "income" (by decide)⟩,
   ⟨by decide, by decide, claim6_lazy_creation_amended.2 claim6Store "2025-02-05" 1 300000 2
      "" "" (by decide) (by decide)⟩⟩

/-! ### Claim C2 -/

theorem getBudgetRemaining_some (s : Store) (c : Nat) (m : String) (b : Budget)
    (h : getBudget s c m = some b) :
    getBudgetRemaining s c m = b.totalBudget + sumSubsidiesReceived s c m
      - sumExpenses s c m - sumSubsidiesGiven s c m := by
  unfold getBudgetRemaining
  rw [h]

theorem getBudgetRemaining_none (s : Store) (c : Nat) (m : String)
    (h : getBudget s c m = none) : getBudgetRemaining s c m = 0 := by
  unfold getBudgetRemaining
  rw [h]

/-- The store on which the Scenario A/B counterexample runs: category 1 (M)
budgeted 3000000 and category 2 (H) budgeted 1000000 for 2025-02, nothing
else. -/
def claim2Store : Store :=
  { emptyStore with budgets :=
      ⟨[⟨1, 1, "2025-02", 3000000, 0, 3000000⟩, ⟨2, 2, "2025-02", 1000000, 0, 1000000⟩], 3⟩ }

/-- C2 counterexample: in the exact Scenario B setting the subsidy call
succeeds but the recipient's remaining afterwards is 200000, not 0 -- the
deficit is granted twice, once through the Subsidy row (the
subsidies-received term of the remaining formula) and once through the
recipient's `totalBudget` increase. -/
theorem claim2_counterexample :
    (createExpenseWithSubsidy claim2Store "2025-02-05" 1 3200000 2 "lunch" "borrow").1.isOk
      = true ∧
    getBudgetRemaining
      (createExpenseWithSubsidy claim2Store "2025-02-05" 1 3200000 2 "lunch" "borrow").2
      1 "2025-02" = 200000 ∧
    ¬ getBudgetRemaining
      (createExpenseWithSubsidy claim2Store "2025-02-05" 1 3200000 2 "lunch" "borrow").2
      1 "2025-02" = 0 := by
  decide

/-- C2 amended: Scenario B with the recipient's post-call remaining
corrected from 0 to 200000 (the deficit).  Everything else in the scenario
holds: the call succeeds, the Expense is flagged `isOverBudget`, a Subsidy
of 200000 from H to M is recorded, M's `totalBudget` becomes 3200000, H's
remaining drops by exactly 200000 and H's `budgetAmount` is untouched. -/
theorem claim2_scenarioB_amended (s : Store) (M H : Nat) (b : Budget)
    (hMH : M ≠ H)
    (hwf : (s.budgets.rows.map Budget.id).Nodup)
    (hb : getBudget s M "2025-02" = some b)
    (hba : b.budgetAmount = 3000000) (hco : b.carriedOver = 0) (htot : b.totalBudget = 3000000)
    (hexp : sumExpenses s M "2025-02" = 0)
    (hrecv : sumSubsidiesReceived s M "2025-02" = 0)
    (hgiven : sumSubsidiesGiven s M "2025-02" = 0)
    (hH : 200000 ≤ getBudgetRemaining s H "2025-02") :
    (createExpenseWithSubsidy s "2025-02-05" M 3200000 H "lunch" "borrow").1.isOk = true ∧
    (∃ e, (createExpenseWithSubsidy s "2025-02-05" M 3200000 H "lunch" "borrow").2.expenses.rows
        = s.expenses.rows ++ [e] ∧
      e.categoryId = M ∧ e.amount = 3200000 ∧ e.isOverBudget = true) ∧
    (∃ sub,
      (createExpenseWithSubsidy s "2025-02-05" M 3200000 H "lunch" "borrow").2.subsidies.rows
        = s.subsidies.rows ++ [sub] ∧
      sub.fromCategoryId = H ∧ sub.toCategoryId = M ∧ sub.amount = 200000 ∧
      sub.month = "2025-02") ∧
    ((getBudget (createExpenseWithSubsidy s "2025-02-05" M 3200000 H "lunch" "borrow").2
        M "2025-02").map Budget.totalBudget = some 3200000) ∧
    (getBudgetRemaining (createExpenseWithSubsidy s "2025-02-05" M 3200000 H "lunch"
        "borrow").2 M "2025-02" = 200000) ∧
    (getBudgetRemaining (createExpenseWithSubsidy s "2025-02-05" M 3200000 H "lunch"
        "borrow").2 H "2025-02" = getBudgetRemaining s H "2025-02" - 200000) ∧
    ((getBudget (createExpenseWithSubsidy s "2025-02-05" M 3200000 H "lunch" "borrow").2
        H "2025-02").map Budget.budgetAmount =
      (getBudget s H "2025-02").map Budget.budgetAmount) := by
  have hm : getMonthFromDate "2025-02-05" = "2025-02" := rfl
  have h2 : (3200000 : Int) - 3000000 = 200000 := by norm_num
  have hremM : getBudgetRemaining s M "2025-02" = 3000000 := by
    rw [getBudgetRemaining_some s M "2025-02" b hb, htot, hexp, hrecv, hgiven]
    norm_num
  have hbl : s.budgets.rows.find? (fun x => x.categoryId == M && x.month == "2025-02") =
      some b := hb
  have hbmem : b ∈ s.budgets.rows := List.mem_of_find?_eq_some hbl
  have hbcat : b.categoryId = M := by
    have := List.find?_some hbl
    simp at this
    exact this.1
  have hpM : ∀ r : Budget,
      (((if r.id = b.id then { r with totalBudget := b.totalBudget + 200000 } else r).categoryId
          == M) &&
        ((if r.id = b.id then { r with totalBudget := b.totalBudget + 200000 } else r).month
          == "2025-02")) =
      ((r.categoryId == M) && (r.month == "2025-02")) := by
    intro r
    by_cases hid : r.id = b.id <;> simp [hid]
  have hpH : ∀ r : Budget,
      (((if r.id = b.id then { r with totalBudget := b.totalBudget + 200000 } else r).categoryId
          == H) &&
        ((if r.id = b.id then { r with totalBudget := b.totalBudget + 200000 } else r).month
          == "2025-02")) =
      ((r.categoryId == H) && (r.month == "2025-02")) := by
    intro r
    by_cases hid : r.id = b.id <;> simp [hid]
  have hexpL : ((s.expenses.rows.filter
      (fun x => x.categoryId == M && x.month == "2025-02")).map Expense.amount).sum = 0 := by
    rw [← sumExpenses_eq]
    exact hexp
  have hrecvL : ((s.subsidies.rows.filter
      (fun x => x.toCategoryId == M && x.month == "2025-02")).map Subsidy.amount).sum = 0 := by
    rw [← sumSubsidiesReceived_eq]
    exact hrecv
  have hgivenL : ((s.subsidies.rows.filter
      (fun x => x.fromCategoryId == M && x.month == "2025-02")).map Subsidy.amount).sum
      = 0 := by
    rw [← sumSubsidiesGiven_eq]
    exact hgiven
  simp only [createExpenseWithSubsidy, Table.add]
  rw [hm]
  rw [if_neg (by rw [hremM, h2]; exact not_lt.mpr hH)]
  rw [hremM, h2]
  simp only [getBudget_mk]
  rw [hbl]
  refine ⟨rfl, ⟨_, rfl, rfl, rfl, rfl⟩, ⟨_, rfl, rfl, rfl, rfl, rfl⟩, ?_, ?_, ?_⟩
  · simp only [getBudget_mk, Table.updateById, getId_budget]
    rw [find?_map_pres _ _ _ hpM, hbl]
    simp [htot]
  · rw [getBudgetRemaining_some _ M "2025-02"
        ({ b with totalBudget := b.totalBudget + 200000 })
        (by
          simp only [getBudget_mk, Table.updateById, getId_budget]
          rw [find?_map_pres _ _ _ hpM, hbl]
          simp)]
    rw [sumExpenses_eq, sumSubsidiesReceived_eq, sumSubsidiesGiven_eq]
    simp only [List.filter_append, List.map_append, List.sum_append]
    have hMM : (M == M) = true := by simp
    have hHM : (H == M) = false := by simp [Ne.symm hMH]
    simp only [List.filter, hMM, hHM, Bool.true_and, Bool.false_and, beq_self_eq_true,
      if_true, if_false]
    simp [hexpL, hrecvL, hgivenL, htot]
  · cases hbH : getBudget s H "2025-02" with
    | none =>
        exfalso
        rw [getBudgetRemaining_none s H "2025-02" hbH] at hH
        norm_num at hH
    | some bH =>
        have hbHl : s.budgets.rows.find?
            (fun x => x.categoryId == H && x.month == "2025-02") = some bH := hbH
        have hbHmem : bH ∈ s.budgets.rows := List.mem_of_find?_eq_some hbHl
        have hbHcat : bH.categoryId = H := by
          have := List.find?_some hbHl
          simp at this
          exact this.1
        have hidne : bH.id ≠ b.id := by
          intro hi
          have heq : bH = b := List.inj_on_of_nodup_map hwf hbHmem hbmem hi
          rw [heq] at hbHcat
          exact hMH (hbcat.symm.trans hbHcat)
        have hupdH : ∀ rows2 : List Budget, rows2 = s.budgets.rows →
            (rows2.map (fun r => if r.id = b.id then
              { r with totalBudget := b.totalBudget + 200000 } else r)).find?
              (fun x => x.categoryId == H && x.month == "2025-02") = some bH := by
          intro rows2 hrows
          rw [hrows, find?_map_pres _ _ _ hpH, hbHl]
          simp [hidne]
        constructor
        · rw [getBudgetRemaining_some _ H "2025-02" bH
              (by
                simp only [getBudget_mk, Table.updateById, getId_budget]
                exact hupdH s.budgets.rows rfl)]
          rw [getBudgetRemaining_some s H "2025-02" bH hbH]
          rw [sumExpenses_eq, sumSubsidiesReceived_eq, sumSubsidiesGiven_eq]
          simp only [List.filter_append, List.map_append, List.sum_append]
          have hMH2 : (M == H) = false := by simp [hMH]
          have hHH : (H == H) = true := by simp
          simp only [List.filter, hMH2, hHH, Bool.true_and, Bool.false_and,
            beq_self_eq_true, if_true, if_false]
          rw [sumExpenses_eq, sumSubsidiesReceived_eq, sumSubsidiesGiven_eq]
          simp
          ring
        · simp only [getBudget_mk, Table.updateById, getId_budget]
          rw [hupdH s.budgets.rows rfl]

/-- C2 witness: the amended theorem instantiated on `claim2Store` with
M = 1, H = 2; every hypothesis is discharged by computation. -/
theorem claim2_witness :
    ((1 : Nat) ≠ 2 ∧
      (claim2Store.budgets.rows.map Budget.id).Nodup ∧
      getBudget claim2Store 1 "2025-02" = some ⟨1, 1, "2025-02", 3000000, 0, 3000000⟩ ∧
      sumExpenses claim2Store 1 "2025-02" = 0 ∧
      sumSubsidiesReceived claim2Store 1 "2025-02" = 0 ∧
      sumSubsidiesGiven claim2Store 1 "2025-02" = 0 ∧
      (200000 : Int) ≤ getBudgetRemaining claim2Store 2 "2025-02") ∧
    ((createExpenseWithSubsidy claim2Store "2025-02-05" 1 3200000 2 "lunch" "borrow").1.isOk
        = true ∧
      (∃ e, (createExpenseWithSubsidy claim2Store "2025-02-05" 1 3200000 2 "lunch"
          "borrow").2.expenses.rows = claim2Store.expenses.rows ++ [e] ∧
        e.categoryId = 1 ∧ e.amount = 3200000 ∧ e.isOverBudget = true) ∧
      (∃ sub, (createExpenseWithSubsidy claim2Store "2025-02-05" 1 3200000 2 "lunch"
          "borrow").2.subsidies.rows = claim2Store.subsidies.rows ++ [sub] ∧
        sub.fromCategoryId = 2 ∧ sub.toCategoryId = 1 ∧ sub.amount = 200000 ∧
        sub.month = "2025-02") ∧
      ((getBudget (createExpenseWithSubsidy claim2Store "2025-02-05" 1 3200000 2 "lunch"
          "borrow").2 1 "2025-02").map Budget.totalBudget = some 3200000) ∧
      (getBudgetRemaining (createExpenseWithSubsidy claim2Store "2025-02-05" 1 3200000 2
          "lunch" "borrow").2 1 "2025-02" = 200000) ∧
      (getBudgetRemaining (createExpenseWithSubsidy claim2Store "2025-02-05" 1 3200000 2
          "lunch" "borrow").2 2 "2025-02" =
        getBudgetRemaining claim2Store 2 "2025-02" - 200000) ∧
      ((getBudget (createExpenseWithSubsidy claim2Store "2025-02-05" 1 3200000 2 "lunch"
          "borrow").2 2 "2025-02").map Budget.budgetAmount =
        (getBudget claim2Store 2 "2025-02").map Budget.budgetAmount)) :=
  ⟨⟨by decide, by decide, by decide, by decide, by decide, by decide, by decide⟩,
   claim2_scenarioB_amended claim2Store 1 2 ⟨1, 1, "2025-02", 3000000, 0, 3000000⟩
     (by decide) (by decide) (by decide) (by decide) (by decide) (by decide)
     (by decide) (by decide) (by decide) (by decide)⟩

/-! ### Claim C1 -/

/-- The totalBudget audit invariant of the specification: every stored
Budget row satisfies `totalBudget = budgetAmount + carriedOver`. -/
def budgetInvariant (s : Store) : Prop :=
  ∀ b ∈ s.budgets.rows, b.totalBudget = b.budgetAmount + b.carriedOver

instance (s : Store) : Decidable (budgetInvariant s) := by
  unfold budgetInvariant
  infer_instance

theorem map_id_if (l : List Budget) (i : Nat) (f : Budget → Budget)
    (hf : ∀ r, r.id = i → (f r).id = r.id) :
    (l.map (fun r => if r.id = i then f r else r)).map Budget.id = l.map Budget.id := by
  induction l with
  | nil => rfl
  | cons x t ih =>
      simp only [List.map_cons, ih]
      by_cases hid : x.id = i <;> simp [hid, hf x]

theorem map_getId_budget (l : List Budget) : l.map HasId.getId = l.map Budget.id := rfl

theorem updateById_wf (t : Table Budget) (i : Nat) (f : Budget → Budget)
    (hf : ∀ r, r.id = i → (f r).id = r.id) (h : t.WF) : (t.updateById i f).WF := by
  obtain ⟨h1, h2⟩ := h
  constructor
  · show (List.map Budget.id
      (t.rows.map (fun r => if r.id = i then f r else r))).Nodup
    rw [map_id_if t.rows i f hf]
    exact h1
  · intro r hr
    simp only [Table.updateById, getId_budget] at hr ⊢
    rcases List.mem_map.mp hr with ⟨x, hx, rfl⟩
    by_cases hid : x.id = i
    · rw [if_pos hid, hf x hid]
      exact h2 x hx
    · rw [if_neg hid]
      exact h2 x hx

theorem add_wf [HasId α] (t : Table α) (mk : Nat → α)
    (hmk : HasId.getId (mk t.nextId) = t.nextId) (h : t.WF) : ((t.add mk).2).WF := by
  obtain ⟨h1, h2⟩ := h
  constructor
  · simp only [Table.add, List.map_append, List.map_cons, List.map_nil]
    rw [List.nodup_append]
    refine ⟨h1, List.nodup_singleton _, ?_⟩
    intro a ha hb
    rcases List.mem_map.mp ha with ⟨r, hr, rfl⟩
    simp only [List.mem_singleton] at hb
    rw [hmk] at hb
    exact absurd (hb ▸ h2 r hr) (lt_irrefl _)
  · intro r hr
    simp only [Table.add] at hr ⊢
    rcases List.mem_append.mp hr with hcase | hcase
    · exact Nat.lt_succ_of_lt (h2 r hcase)
    · simp only [List.mem_singleton] at hcase
      rw [hcase, hmk]
      exact Nat.lt_succ_self _

theorem setBudget_wf (s : Store) (c : Nat) (m : String) (ba co : Int)
    (hwf : s.budgets.WF) : ((setBudget s c m ba co).2).budgets.WF := by
  unfold setBudget
  cases hE : getBudget s c m with
  | some e =>
      exact updateById_wf s.budgets e.id _ (fun r h => h.symm) hwf
  | none =>
      exact add_wf s.budgets
        (fun i => ⟨i, c, m, ba, co, ba + co⟩) rfl hwf

theorem setBudget_budgetInvariant (s : Store) (c : Nat) (m : String) (ba co : Int)
    (hInv : budgetInvariant s) : budgetInvariant (setBudget s c m ba co).2 := by
  unfold setBudget
  cases hE : getBudget s c m with
  | some e =>
      intro b hb
      simp only [Table.updateById, getId_budget] at hb
      rcases List.mem_map.mp hb with ⟨x, hx, rfl⟩
      by_cases hid : x.id = e.id
      · rw [if_pos hid]
      · rw [if_neg hid]
        exact hInv x hx
  | none =>
      intro b hb
      simp only [Table.add] at hb
      rcases List.mem_append.mp hb with hcase | hcase
      · exact hInv b hcase
      · simp only [List.mem_singleton] at hcase
        rw [hcase]

theorem allocOne_wf (incomeId : Option Nat) (tp : String) (s : Store) (a : AllocInput)
    (hwf : s.budgets.WF) : ((allocOne incomeId tp s a).2).budgets.WF := by
  unfold allocOne
  cases hE : getBudget s a.categoryId a.month with
  | none =>
      exact setBudget_wf s a.categoryId a.month a.amount 0 hwf
  | some b0 =>
      exact updateById_wf s.budgets b0.id _ (fun r _ => rfl) hwf

theorem allocOne_budgetInvariant (incomeId : Option Nat) (tp : String) (s : Store)
    (a : AllocInput) (hwf : s.budgets.WF) (hInv : budgetInvariant s) :
    budgetInvariant (allocOne incomeId tp s a).2 := by
  unfold allocOne
  cases hE : getBudget s a.categoryId a.month with
  | none =>
      exact setBudget_budgetInvariant s a.categoryId a.month a.amount 0 hInv
  | some b0 =>
      have hb0mem : b0 ∈ s.budgets.rows := List.mem_of_find?_eq_some hE
      intro b hb
      simp only [Table.updateById, getId_budget] at hb
      rcases List.mem_map.mp hb with ⟨x, hx, rfl⟩
      by_cases hid : x.id = b0.id
      · have hx0 : x = b0 :=
          List.inj_on_of_nodup_map hwf.1 hx hb0mem (by simp [hid])
        subst hx0
        rw [if_pos hid]
        show x.totalBudget + a.amount = x.budgetAmount + a.amount + x.carriedOver
        have h0 := hInv x hx
        omega
      · rw [if_neg hid]
        exact hInv x hx

theorem allocLoop_pres (incomeId : Option Nat) (tp : String) (es : List AllocInput) :
    ∀ s : Store, s.budgets.WF → budgetInvariant s →
      ((allocLoop incomeId tp s es).2).budgets.WF ∧
        budgetInvariant (allocLoop incomeId tp s es).2 := by
  induction es with
  | nil =>
      intro s hwf hInv
      exact ⟨hwf, hInv⟩
  | cons e rest ih =>
      intro s hwf hInv
      simp only [allocLoop]
      rcases hA : allocOne incomeId tp s e with ⟨r, s1⟩
      have hwf1 : s1.budgets.WF := by
        have h1 := allocOne_wf incomeId tp s e hwf
        rw [hA] at h1
        exact h1
      have hInv1 : budgetInvariant s1 := by
        have h1 := allocOne_budgetInvariant incomeId tp s e hwf hInv
        rw [hA] at h1
        exact h1
      rcases hB : allocLoop incomeId tp s1 rest with ⟨rs, s2⟩
      have h2 := ih s1 hwf1 hInv1
      rw [hB] at h2
      exact h2

/-- The store `allocateIncomeToBudgets` leaves behind: the allocation loop
result, with the income marked allocated when the income id is truthy. -/
theorem allocateIncomeToBudgets_snd (s : Store) (incomeId : Option Nat)
    (es : List AllocInput) (tp : String) :
    (allocateIncomeToBudgets s incomeId es tp).2 =
      if jsTruthyId incomeId then
        markIncomeAsAllocated (allocLoop incomeId tp s es).2 (incomeId.getD 0)
      else (allocLoop incomeId tp s es).2 := by
  unfold allocateIncomeToBudgets
  cases allocLoop incomeId tp s es with
  | mk rs s1 => cases jsTruthyId incomeId <;> rfl

/-- A budget-table update that raises one row's `carriedOver` and
`totalBudget` by the same amount preserves the totalBudget invariant. -/
theorem updateById_carry_invariant (s : Store) (nb0 : Budget) (amt : Int)
    (hwf : s.budgets.WF) (hmem : nb0 ∈ s.budgets.rows) (hInv : budgetInvariant s) :
    ∀ b ∈ (s.budgets.updateById nb0.id (fun r =>
        { r with carriedOver := nb0.carriedOver + amt,
                 totalBudget := nb0.totalBudget + amt })).rows,
      b.totalBudget = b.budgetAmount + b.carriedOver := by
  intro b hb
  simp only [Table.updateById, getId_budget] at hb
  rcases List.mem_map.mp hb with ⟨x, hx, rfl⟩
  by_cases hid : x.id = nb0.id
  · have hx0 : x = nb0 :=
      List.inj_on_of_nodup_map hwf.1 hx hmem (by simp [hid])
    subst hx0
    rw [if_pos hid]
    show x.totalBudget + amt = x.budgetAmount + (x.carriedOver + amt)
    have h0 := hInv x hx
    omega
  · rw [if_neg hid]
    exact hInv x hx

/-- C1 counterexample store: two budget rows satisfying the invariant. -/
def claim1Store : Store :=
  { emptyStore with budgets :=
      ⟨[⟨1, 1, "2025-02", 100, 0, 100⟩, ⟨2, 2, "2025-02", 500, 0, 500⟩], 3⟩ }

/-- C1 counterexample: the invariant `totalBudget = budgetAmount +
carriedOver` holds in `claim1Store` but fails after a successful
`createExpenseWithSubsidy` (expense of 150 against a 100 budget subsidised
by category 2): the recipient row becomes
`{budgetAmount: 100, carriedOver: 0, totalBudget: 150}`. -/
theorem claim1_counterexample :
    budgetInvariant claim1Store ∧
    (createExpenseWithSubsidy claim1Store "2025-02-05" 1 150 2 "" "").1.isOk = true ∧
    ¬ budgetInvariant (createExpenseWithSubsidy claim1Store "2025-02-05" 1 150 2 "" "").2 := by
  decide

/-- C1 amended: the totalBudget invariant is preserved by `setBudget`,
`allocateIncomeToBudgets`, `createExpense`, `processCarryOver` and
`deleteExpense`; it is NOT preserved by `createExpenseWithSubsidy`, which
adds the deficit to the recipient's stored `totalBudget` while leaving
`budgetAmount` and `carriedOver` unchanged (see the counterexample). -/
theorem claim1_invariant_amended :
    (∀ (s : Store) (c : Nat) (m : String) (ba co : Int), budgetInvariant s →
      budgetInvariant (setBudget s c m ba co).2) ∧
    (∀ (s : Store) (incomeId : Option Nat) (es : List AllocInput) (tp : String),
      s.budgets.WF → budgetInvariant s →
      budgetInvariant (allocateIncomeToBudgets s incomeId es tp).2) ∧
    (∀ (s : Store) (date : String) (c : Nat) (amt : Int) (nt : String), budgetInvariant s →
      budgetInvariant (createExpense s date c amt nt).2) ∧
    (∀ (s : Store) (c : Nat) (fm act : String) (ca : Option Int),
      s.budgets.WF → budgetInvariant s →
      budgetInvariant (processCarryOver s c fm act ca).2) ∧
    (∀ (s : Store) (eid : Nat), budgetInvariant s →
      budgetInvariant (deleteExpense s eid)) := by
  refine ⟨?_, ?_, ?_, ?_, ?_⟩
  · exact fun s c m ba co hInv => setBudget_budgetInvariant s c m ba co hInv
  · intro s incomeId es tp hwf hInv
    rw [allocateIncomeToBudgets_snd]
    cases hj : jsTruthyId incomeId with
    | false =>
        rw [if_neg Bool.false_ne_true]
        exact (allocLoop_pres incomeId tp es s hwf hInv).2
    | true =>
        rw [if_pos rfl]
        exact fun b hb => (allocLoop_pres incomeId tp es s hwf hInv).2 b hb
  · intro s date c amt nt hInv
    simp only [createExpense, Table.add]
    split
    · exact hInv
    · intro b hb
      exact hInv b hb
  · intro s c fm act ca hwf hInv
    simp only [processCarryOver, Table.add, getBudget_mk]
    cases ca with
    | none =>
        split
        · exact hInv
        · split
          · exact hInv
          · by_cases hact : act = "carry"
            · simp only [hact, eq_self_iff_true, if_true, true_and]
              split
              · cases hnb : s.budgets.rows.find?
                    (fun b => b.categoryId == c && b.month == nextMonthKey fm) with
                | some nb0 =>
                    have hnb0mem : nb0 ∈ s.budgets.rows := List.mem_of_find?_eq_some hnb
                    split
                    · exact fun b hb =>
                        updateById_carry_invariant s nb0 _ hwf hnb0mem hInv b hb
                    · exact fun b hb =>
                        updateById_carry_invariant s nb0 _ hwf hnb0mem hInv b hb
                | none =>
                    split
                    · intro b hb
                      refine setBudget_budgetInvariant _ c (nextMonthKey fm) 0 _ ?_ b hb
                      exact fun b2 hb2 => hInv b2 hb2
                    · intro b hb
                      refine setBudget_budgetInvariant _ c (nextMonthKey fm) 0 _ ?_ b hb
                      exact fun b2 hb2 => hInv b2 hb2
              · exact fun b hb => hInv b hb
            · simp only [if_neg hact]
              rw [if_neg (fun h => hact h.1)]
              exact fun b hb => hInv b hb
    | some a =>
        split
        · exact hInv
        · split
          · exact hInv
          · by_cases hact : act = "carry"
            · simp only [hact, eq_self_iff_true, if_true, true_and]
              split
              · cases hnb : s.budgets.rows.find?
                    (fun b => b.categoryId == c && b.month == nextMonthKey fm) with
                | some nb0 =>
                    have hnb0mem : nb0 ∈ s.budgets.rows := List.mem_of_find?_eq_some hnb
                    split
                    · exact fun b hb =>
                        updateById_carry_invariant s nb0 _ hwf hnb0mem hInv b hb
                    · exact fun b hb =>
                        updateById_carry_invariant s nb0 _ hwf hnb0mem hInv b hb
                | none =>
                    split
                    · intro b hb
                      refine setBudget_budgetInvariant _ c (nextMonthKey fm) 0 _ ?_ b hb
                      exact fun b2 hb2 => hInv b2 hb2
                    · intro b hb
                      refine setBudget_budgetInvariant _ c (nextMonthKey fm) 0 _ ?_ b hb
                      exact fun b2 hb2 => hInv b2 hb2
              · exact fun b hb => hInv b hb
            · simp only [if_neg hact]
              rw [if_neg (fun h => hact h.1)]
              exact fun b hb => hInv b hb
  · intro s eid hInv
    intro b hb
    exact hInv b hb


/-- C1 witness: the invariant-preserving conjuncts applied on `claim1Store`
for each of the five operations. -/
theorem claim1_witness :
    (budgetInvariant claim1Store ∧ claim1Store.budgets.WF) ∧
    budgetInvariant (setBudget claim1Store 3 "2025-03" 5 7).2 ∧
    budgetInvariant (allocateIncomeToBudgets claim1Store (some 1)
      [⟨1, "2025-02", 5, ""⟩] "income").2 ∧
    budgetInvariant (createExpense claim1Store "2025-02-05" 1 50 "x").2 ∧
    budgetInvariant (processCarryOver claim1Store 1 "2025-02" "carry" (some 50)).2 ∧
    budgetInvariant (deleteExpense claim1Store 1) :=
  ⟨⟨by decide, by decide⟩,
   claim1_invariant_amended.1 claim1Store 3 "2025-03" 5 7 (by decide),
   claim1_invariant_amended.2.1 claim1Store (some 1) [⟨1, "2025-02", 5, ""⟩] "income"
     (by decide) (by decide),
   claim1_invariant_amended.2.2.1 claim1Store "2025-02-05" 1 50 "x" (by decide),
   claim1_invariant_amended.2.2.2.1 claim1Store 1 "2025-02" "carry" (some 50)
     (by decide) (by decide),
   claim1_invariant_amended.2.2.2.2 claim1Store 1 (by decide)⟩

/-! ### Claim C9 -/

/-- Specification abbreviation: the total amount a list of allocation
entries assigns to one `(categoryId, month)` pair (entries for the same
pair are not merged by the engine, so their effects add up). -/
def allocatedAmount (c : Nat) (m : String) (es : List AllocInput) : Int :=
  ((es.filter (fun e => e.categoryId == c && e.month == m)).map AllocInput.amount).sum

theorem setBudget_allocations (s : Store) (c : Nat) (m : String) (ba co : Int) :
    ((setBudget s c m ba co).2).allocations = s.allocations := by
  unfold setBudget
  cases getBudget s c m <;> rfl

theorem setBudget_incomes (s : Store) (c : Nat) (m : String) (ba co : Int) :
    ((setBudget s c m ba co).2).incomes = s.incomes := by
  unfold setBudget
  cases getBudget s c m <;> rfl

theorem allocOne_incomes (incomeId : Option Nat) (tp : String) (s : Store) (e : AllocInput) :
    ((allocOne incomeId tp s e).2).incomes = s.incomes := by
  unfold allocOne
  cases hE : getBudget s e.categoryId e.month with
  | none => exact setBudget_incomes s e.categoryId e.month e.amount 0
  | some b0 => rfl

theorem allocOne_allocations_shape (incomeId : Option Nat) (tp : String) (s : Store)
    (e : AllocInput) :
    ∃ al, ((allocOne incomeId tp s e).2).allocations.rows = s.allocations.rows ++ [al] ∧
      al.incomeId = incomeId ∧ al.amount = e.amount ∧ al.type = tp ∧ al.note = e.note := by
  unfold allocOne
  cases hE : getBudget s e.categoryId e.month with
  | none =>
      rcases hS : setBudget s e.categoryId e.month e.amount 0 with ⟨bS, sS⟩
      have hall : sS.allocations = s.allocations := by
        have h1 := setBudget_allocations s e.categoryId e.month e.amount 0
        rw [hS] at h1
        exact h1
      refine ⟨⟨sS.allocations.nextId, incomeId, bS.id, e.amount, tp, e.note⟩, ?_,
        rfl, rfl, rfl, rfl⟩
      show sS.allocations.rows ++ [⟨sS.allocations.nextId, incomeId, bS.id,
        e.amount, tp, e.note⟩] = s.allocations.rows ++ [⟨sS.allocations.nextId, incomeId,
        bS.id, e.amount, tp, e.note⟩]
      rw [hall]
  | some b0 =>
      exact ⟨⟨s.allocations.nextId, incomeId, b0.id, e.amount, tp, e.note⟩,
        rfl, rfl, rfl, rfl, rfl⟩

theorem allocOne_getBudget (incomeId : Option Nat) (tp : String) (s : Store) (e : AllocInput)
    (hwf : s.budgets.WF) (c : Nat) (m : String) :
    getBudget (allocOne incomeId tp s e).2 c m =
      if e.categoryId == c && e.month == m then
        match getBudget s c m with
        | some b => some { b with budgetAmount := b.budgetAmount + e.amount,
                                  totalBudget := b.totalBudget + e.amount }
        | none => some ⟨s.budgets.nextId, e.categoryId, e.month, e.amount, 0, e.amount + 0⟩
      else getBudget s c m := by
  unfold allocOne setBudget
  cases hE : getBudget s e.categoryId e.month with
  | none =>
      simp only [Table.add, getBudget_mk]
      rw [List.find?_append]
      cases hc : (e.categoryId == c && e.month == m) with
      | true =>
          obtain ⟨hc1, hc2⟩ : e.categoryId = c ∧ e.month = m := by simpa using hc
          subst hc1
          subst hc2
          rw [show s.budgets.rows.find?
              (fun b => b.categoryId == e.categoryId && b.month == e.month) = none from hE]
          rw [show getBudget s e.categoryId e.month = none from hE]
          rw [find?_singleton]
          simp
      | false =>
          rw [find?_singleton]
          rw [show ((⟨s.budgets.nextId, e.categoryId, e.month, e.amount, 0,
              e.amount + 0⟩ : Budget).categoryId == c &&
              (⟨s.budgets.nextId, e.categoryId, e.month, e.amount, 0,
              e.amount + 0⟩ : Budget).month == m) = false from hc]
          simp only [Bool.false_eq_true, if_false, Option.or_none]
          rfl
  | some b0 =>
      have hb0mem : b0 ∈ s.budgets.rows := List.mem_of_find?_eq_some hE
      have hb0p := List.find?_some hE
      have hb0cat : b0.categoryId = e.categoryId := by
        simp at hb0p
        exact hb0p.1
      have hb0month : b0.month = e.month := by
        simp at hb0p
        exact hb0p.2
      have hp : ∀ r : Budget,
          (((if r.id = b0.id then
              { r with budgetAmount := b0.budgetAmount + e.amount,
                       totalBudget := b0.totalBudget + e.amount } else r).categoryId == c) &&
            ((if r.id = b0.id then
              { r with budgetAmount := b0.budgetAmount + e.amount,
                       totalBudget := b0.totalBudget + e.amount } else r).month == m)) =
          ((r.categoryId == c) && (r.month == m)) := by
        intro r
        by_cases hid : r.id = b0.id <;> simp [hid]
      simp only [Table.add, getBudget_mk, Table.updateById, getId_budget]
      rw [find?_map_pres _ _ _ hp]
      cases hc : (e.categoryId == c && e.month == m) with
      | true =>
          obtain ⟨hc1, hc2⟩ : e.categoryId = c ∧ e.month = m := by simpa using hc
          subst hc1
          subst hc2
          rw [show s.budgets.rows.find?
              (fun b => b.categoryId == e.categoryId && b.month == e.month) = some b0 from hE]
          rw [show getBudget s e.categoryId e.month = some b0 from hE]
          simp
      | false =>
          simp only [Bool.false_eq_true, if_false]
          cases hr : s.budgets.rows.find? (fun b => b.categoryId == c && b.month == m) with
          | none =>
              rw [show getBudget s c m = none from hr]
              rfl
          | some r =>
              have hrmem : r ∈ s.budgets.rows := List.mem_of_find?_eq_some hr
              have hrp := List.find?_some hr
              have hrcat : r.categoryId = c := by
                simp at hrp
                exact hrp.1
              have hrmonth : r.month = m := by
                simp at hrp
                exact hrp.2
              have hidne : r.id ≠ b0.id := by
                intro hi
                have heq : r = b0 := List.inj_on_of_nodup_map hwf.1 hrmem hb0mem
                  (by simp [hi])
                rw [heq] at hrcat hrmonth
                rw [hb0cat] at hrcat
                rw [hb0month] at hrmonth
                subst hrcat
                subst hrmonth
                simp at hc
              rw [show getBudget s c m = some r from hr]
              simp [hidne]

theorem allocLoop_incomes (incomeId : Option Nat) (tp : String) (es : List AllocInput) :
    ∀ s : Store, ((allocLoop incomeId tp s es).2).incomes = s.incomes := by
  induction es with
  | nil =>
      intro s
      rfl
  | cons e rest ih =>
      intro s
      simp only [allocLoop]
      rcases hA : allocOne incomeId tp s e with ⟨r, s1⟩
      rcases hB : allocLoop incomeId tp s1 rest with ⟨rs, s2⟩
      have h1 := allocOne_incomes incomeId tp s e
      rw [hA] at h1
      have h2 := ih s1
      rw [hB] at h2
      exact h2.trans h1

theorem allocLoop_allocations (incomeId : Option Nat) (tp : String) (es : List AllocInput) :
    ∀ s : Store, ∃ ns : List Allocation,
      ((allocLoop incomeId tp s es).2).allocations.rows = s.allocations.rows ++ ns ∧
      ns.map (fun al => (al.incomeId, al.amount, al.type, al.note)) =
        es.map (fun e => (incomeId, e.amount, tp, e.note)) := by
  induction es with
  | nil =>
      intro s
      exact ⟨[], by simp [allocLoop], rfl⟩
  | cons e rest ih =>
      intro s
      simp only [allocLoop]
      rcases hA : allocOne incomeId tp s e with ⟨r, s1⟩
      rcases hB : allocLoop incomeId tp s1 rest with ⟨rs, s2⟩
      obtain ⟨al, h1, hf1, hf2, hf3, hf4⟩ := allocOne_allocations_shape incomeId tp s e
      rw [hA] at h1
      obtain ⟨ns, h2, h3⟩ := ih s1
      rw [hB] at h2
      refine ⟨al :: ns, ?_, ?_⟩
      · show s2.allocations.rows = s.allocations.rows ++ (al :: ns)
        rw [h2, h1, List.append_assoc]
        rfl
      · simp only [List.map_cons, h3, hf1, hf2, hf3, hf4]

theorem allocLoop_budget_effect (incomeId : Option Nat) (tp : String) (es : List AllocInput) :
    ∀ s : Store, s.budgets.WF → ∀ (c : Nat) (m : String),
      (∀ b, getBudget s c m = some b →
        ∃ b2, getBudget ((allocLoop incomeId tp s es).2) c m = some b2 ∧
          b2.budgetAmount = b.budgetAmount + allocatedAmount c m es ∧
          b2.totalBudget = b.totalBudget + allocatedAmount c m es ∧
          b2.carriedOver = b.carriedOver) ∧
      (getBudget s c m = none →
        (es.any (fun x => x.categoryId == c && x.month == m)) = true →
        ∃ b2, getBudget ((allocLoop incomeId tp s es).2) c m = some b2 ∧
          b2.budgetAmount = allocatedAmount c m es ∧
          b2.totalBudget = allocatedAmount c m es ∧
          b2.carriedOver = 0) ∧
      (getBudget s c m = none →
        (es.any (fun x => x.categoryId == c && x.month == m)) = false →
        getBudget ((allocLoop incomeId tp s es).2) c m = none) := by
  induction es with
  | nil =>
      intro s hwf c m
      refine ⟨?_, ?_, ?_⟩
      · intro b hb
        exact ⟨b, hb, by simp [allocatedAmount], by simp [allocatedAmount], rfl⟩
      · intro hb hany
        simp at hany
      · intro hb hany
        exact hb
  | cons e rest ih =>
      intro s hwf c m
      simp only [allocLoop]
      rcases hA : allocOne incomeId tp s e with ⟨r, s1⟩
      have hstep := allocOne_getBudget incomeId tp s e hwf c m
      rw [hA] at hstep
      have hwf1 : s1.budgets.WF := by
        have h1 := allocOne_wf incomeId tp s e hwf
        rw [hA] at h1
        exact h1
      rcases hB : allocLoop incomeId tp s1 rest with ⟨rs, s2⟩
      have ihs := ih s1 hwf1 c m
      rw [hB] at ihs
      cases hc : (e.categoryId == c && e.month == m) with
      | true =>
          rw [hc] at hstep
          rw [if_pos rfl] at hstep
          have hAm : allocatedAmount c m (e :: rest) =
              e.amount + allocatedAmount c m rest := by
            simp [allocatedAmount, List.filter_cons, hc]
          refine ⟨?_, ?_, ?_⟩
          · intro b hb
            rw [hb] at hstep
            obtain ⟨b2, g1, g2, g3, g4⟩ := ihs.1 _ hstep
            have g2b : b2.budgetAmount = b.budgetAmount + e.amount +
              allocatedAmount c m rest := g2
            have g3b : b2.totalBudget = b.totalBudget + e.amount +
              allocatedAmount c m rest := g3
            have g4b : b2.carriedOver = b.carriedOver := g4
            refine ⟨b2, g1, ?_, ?_, g4b⟩ <;> rw [hAm] <;> omega
          · intro hb hany
            rw [hb] at hstep
            obtain ⟨b2, g1, g2, g3, g4⟩ := ihs.1 _ hstep
            have g2b : b2.budgetAmount = e.amount + allocatedAmount c m rest := g2
            have g3b : b2.totalBudget = e.amount + 0 + allocatedAmount c m rest := g3
            have g4b : b2.carriedOver = 0 := g4
            refine ⟨b2, g1, ?_, ?_, g4b⟩ <;> rw [hAm] <;> omega
          · intro hb hany
            rw [List.any_cons, hc] at hany
            simp at hany
      | false =>
          rw [hc] at hstep
          simp only [Bool.false_eq_true, if_false] at hstep
          have hAm : allocatedAmount c m (e :: rest) = allocatedAmount c m rest := by
            simp [allocatedAmount, List.filter_cons, hc]
          refine ⟨?_, ?_, ?_⟩
          · intro b hb
            rw [hb] at hstep
            obtain ⟨b2, g1, g2, g3, g4⟩ := ihs.1 _ hstep
            rw [hAm]
            exact ⟨b2, g1, g2, g3, g4⟩
          · intro hb hany
            rw [hb] at hstep
            rw [List.any_cons, hc] at hany
            simp only [Bool.false_or] at hany
            obtain ⟨b2, g1, g2, g3, g4⟩ := ihs.2.1 hstep hany
            rw [hAm]
            exact ⟨b2, g1, g2, g3, g4⟩
          · intro hb hany
            rw [hb] at hstep
            rw [List.any_cons, hc] at hany
            simp only [Bool.false_or] at hany
            exact ihs.2.2 hstep hany

/-- C9: with a truthy income id, `allocateIncomeToBudgets` processes the
entries in input order writing one Allocation per entry carrying the
income id, the entry amount, the type and the note; for each
`(categoryId, month)` pair it creates the Budget with `budgetAmount` equal
to the allocated total (`carriedOver = 0`) when absent, or adds the total
to both `budgetAmount` and `totalBudget` when present; and afterwards it
marks the income `isAllocated = true` unconditionally -- no hypothesis
relates the allocated sum to the income amount. -/
theorem claim9_allocate_spec (s : Store) (i : Nat) (es : List AllocInput) (tp : String)
    (hwf : s.budgets.WF) (hi : 0 < i) (hes : es ≠ []) :
    (∃ ns : List Allocation,
      (allocateIncomeToBudgets s (some i) es tp).2.allocations.rows =
        s.allocations.rows ++ ns ∧
      ns.map (fun al => (al.incomeId, al.amount, al.type, al.note)) =
        es.map (fun e => (some i, e.amount, tp, e.note))) ∧
    (∀ (c : Nat) (m : String),
      (∀ b, getBudget s c m = some b →
        ∃ b2, getBudget (allocateIncomeToBudgets s (some i) es tp).2 c m = some b2 ∧
          b2.budgetAmount = b.budgetAmount + allocatedAmount c m es ∧
          b2.totalBudget = b.totalBudget + allocatedAmount c m es ∧
          b2.carriedOver = b.carriedOver) ∧
      (getBudget s c m = none →
        (es.any (fun x => x.categoryId == c && x.month == m)) = true →
        ∃ b2, getBudget (allocateIncomeToBudgets s (some i) es tp).2 c m = some b2 ∧
          b2.budgetAmount = allocatedAmount c m es ∧
          b2.totalBudget = allocatedAmount c m es ∧
          b2.carriedOver = 0) ∧
      (getBudget s c m = none →
        (es.any (fun x => x.categoryId == c && x.month == m)) = false →
        getBudget (allocateIncomeToBudgets s (some i) es tp).2 c m = none)) ∧
    ((allocateIncomeToBudgets s (some i) es tp).2.incomes.rows =
      s.incomes.rows.map (fun inc =>
        if inc.id = i then { inc with isAllocated := true } else inc)) := by
  have htruthy : jsTruthyId (some i) = true := by
    simp [jsTruthyId]
    omega
  rw [allocateIncomeToBudgets_snd, htruthy, if_pos rfl]
  refine ⟨?_, ?_, ?_⟩
  · obtain ⟨ns, h1, h2⟩ := allocLoop_allocations (some i) tp es s
    exact ⟨ns, h1, h2⟩
  · intro c m
    exact allocLoop_budget_effect (some i) tp es s hwf c m
  · have hinc := allocLoop_incomes (some i) tp es s
    simp only [markIncomeAsAllocated, Table.updateById, getId_income]
    rw [hinc]
    rfl

/-- A store holding one unallocated income (id 1) and nothing else, the
Scenario C starting point. -/
def claim9Store : Store :=
  { emptyStore with incomes :=
      ⟨[⟨1, "2025-03-01", "2025-03", "salary", 1000000, "", false⟩], 2⟩ }

/-- C9 witness: Scenario C through the theorem -- allocating 1000000 to
category 1 for 2025-03 on `claim9Store` creates the Budget row, writes one
Allocation and marks the income allocated. -/
theorem claim9_witness :
    (claim9Store.budgets.WF ∧ (0 : Nat) < 1 ∧
      ([⟨1, "2025-03", 1000000, ""⟩] : List AllocInput) ≠ [] ∧
      getBudget claim9Store 1 "2025-03" = none ∧
      (([⟨1, "2025-03", 1000000, ""⟩] : List AllocInput).any
        (fun x => x.categoryId == 1 && x.month == "2025-03")) = true) ∧
    (∃ ns : List Allocation,
      (allocateIncomeToBudgets claim9Store (some 1)
        [⟨1, "2025-03", 1000000, ""⟩] "income").2.allocations.rows =
        claim9Store.allocations.rows ++ ns ∧
      ns.map (fun al => (al.incomeId, al.amount, al.type, al.note)) =
        ([⟨1, "2025-03", 1000000, ""⟩] : List AllocInput).map
          (fun e => (some 1, e.amount, "income", e.note))) ∧
    (∃ b2, getBudget (allocateIncomeToBudgets claim9Store (some 1)
        [⟨1, "2025-03", 1000000, ""⟩] "income").2 1 "2025-03" = some b2 ∧
      b2.budgetAmount = allocatedAmount 1 "2025-03" [⟨1, "2025-03", 1000000, ""⟩] ∧
      b2.totalBudget = allocatedAmount 1 "2025-03" [⟨1, "2025-03", 1000000, ""⟩] ∧
      b2.carriedOver = 0) ∧
    ((allocateIncomeToBudgets claim9Store (some 1)
        [⟨1, "2025-03", 1000000, ""⟩] "income").2.incomes.rows =
      claim9Store.incomes.rows.map (fun inc =>
        if inc.id = 1 then { inc with isAllocated := true } else inc)) := by
  have T := claim9_allocate_spec claim9Store 1 [⟨1, "2025-03", 1000000, ""⟩] "income"
    (by decide) (by decide) (by decide)
  exact ⟨⟨by decide, by decide, by decide, by decide, by decide⟩, T.1,
    (T.2.1 1 "2025-03").2.1 (by decide) (by decide), T.2.2⟩

end MoneyFlow
